import Mathlib

/-!
# Sistema de venta de muebles: catalogue query builder and authentication handlers

A shallow embedding of `src/routes/catalogo.js`, `src/routes/auth.js` and the request
interceptor of `src/config/database.js`.

* JavaScript strings are Lean strings; `undefined` is `none`.
* JavaScript numbers that the handlers compute with (`parseInt` results, offsets, counts) are
  integer-valued IEEE doubles, `none` standing for a value that is not a finite integer (`NaN`,
  `Infinity`); every operation rounds its exact result to the nearest double, ties to even
  (`dobleDe`), which leaves integers below `2^53` as they are.
* Query-string parameters are scalar strings or absent.
* `query(sql, valores)` is the relational database call that `catalogo.js` destructures from
  `config/database`. The module of that name under `src/` holds the client of the remote
  backend and exports no `query`, so in the code as it stands the name is `undefined` and the
  first call throws `TypeError: query is not a function`. The handlers of `catalogo.js` take
  the binding as a parameter: `queryDeCatalogo` (none) is the code as it stands, and `some` is
  a database in scope, where each call site is modelled by a function that carries the SQL
  text in its documentation and acts on a catalogue given as a list of rows, the statement
  assembled at run time being left to the engine `Motor`.
* In `auth.js` the identifier `query` is not bound at all; its two handlers take the binding
  as a parameter, and `queryDeAuth` is the binding of the file as it stands.
* `jsonwebtoken` and the remote backend service are parameters of the handlers.
-/

namespace Muebles

/-! ## JavaScript primitives -/

/-- ECMAScript `WhiteSpace` and `LineTerminator` code points, the ones `parseInt` skips and
`String.prototype.trim` removes. -/
def esEspacioJS (c : Char) : Bool :=
  let n := c.toNat
  n ∈ [9, 10, 11, 12, 13, 32, 160, 5760, 8232, 8233, 8239, 8287, 12288, 65279]
    || (8192 ≤ n && n ≤ 8202)

/-- Value of a character as a digit in radices up to 36. -/
def valorDigito (c : Char) : Option Nat :=
  if '0' ≤ c ∧ c ≤ '9' then some (c.toNat - 48)
  else if 'a' ≤ c ∧ c ≤ 'z' then some (c.toNat - 87)
  else if 'A' ≤ c ∧ c ≤ 'Z' then some (c.toNat - 55)
  else none

/-- Reads the longest prefix of digits of the radix; `acc` is `none` until a digit is read. -/
def leerDigitos (radix : Nat) : List Char → Option Nat → Option Nat
  | [], acc => acc
  | c :: cs, acc =>
    match valorDigito c with
    | some d => if d < radix then leerDigitos radix cs (some (acc.getD 0 * radix + d)) else acc
    | none => acc

/-- The position of the highest bit of `n ≥ 1`, found by halving at most `pasos` times. -/
def log2Piso : Nat → Nat → Nat
  | 0, _ => 0
  | pasos + 1, n => if n < 2 then 0 else log2Piso pasos (n / 2) + 1

/-- The integer nearest to `num / den`, the even one of the two when it is half way. -/
def cocienteRedondeado (num den : Nat) : Nat :=
  let q := num / den
  let r := num % den
  if 2 * r < den then q
  else if den < 2 * r then q + 1
  else if q % 2 = 0 then q
  else q + 1

/-- The double nearest to a natural number, ties to even: numbers below `2^53` are doubles,
larger ones keep their 53 leading bits, rounded to `m * 2^e`; `none` is `Infinity`, for a result
of `2^1024` or more. -/
def dobleDeNat (n : Nat) : Option Nat :=
  if n < 2 ^ 53 then some n
  else
    let e := log2Piso 2048 n - 52
    let m := cocienteRedondeado n (2 ^ e)
    if 971 < e ∨ (e = 971 ∧ m = 2 ^ 53) then none else some (m * 2 ^ e)

/-- The double nearest to an integer; `none` is an infinity. -/
def dobleDe (z : Int) : Option Int :=
  match z with
  | .ofNat n => (dobleDeNat n).map (fun d => (d : Int))
  | .negSucc n => (dobleDeNat (n + 1)).map (fun d => -(d : Int))

/-- The least `s`, searched from the given one in at most `pasos` steps, for which
`a * 2^s / b` has 53 bits. -/
def escalaDe : Nat → Nat → Nat → Nat → Nat
  | 0, _, _, s => s
  | pasos + 1, a, b, s => if 2 ^ 52 ≤ a * 2 ^ s / b then s else escalaDe pasos a b (s + 1)

/-- The double `a / b` for integer-valued doubles `a ≥ 0` and `b ≥ 1`, as a numerator over a
power of two: the exact quotient rounded to 53 bits, ties to even. Quotients below `2^-1022`
are rounded as if normal, which leaves them strictly between 0 and 1. -/
def cocienteDoble (a b : Nat) : Nat × Nat :=
  if a = 0 then (0, 1)
  else if 2 ^ 53 ≤ a / b then
    let e := log2Piso 2048 (a / b) - 52
    (cocienteRedondeado a (b * 2 ^ e) * 2 ^ e, 1)
  else
    let s := escalaDe 1200 a b 0
    (cocienteRedondeado (a * 2 ^ s) b, 2 ^ s)

/-- `parseInt(s)` with no radix argument: leading white space is skipped, then an optional sign,
an optional `0x`/`0X` prefix, and the longest prefix of digits, whose value is rounded to a
double; `none` is `NaN` or an infinity. -/
def parseInt (s : String) : Option Int :=
  let cs := s.data.dropWhile esEspacioJS
  let signo : Bool × List Char :=
    match cs with
    | '-' :: r => (true, r)
    | '+' :: r => (false, r)
    | _ => (false, cs)
  let base : Nat × List Char :=
    match signo.2 with
    | '0' :: 'x' :: r => (16, r)
    | '0' :: 'X' :: r => (16, r)
    | _ => (10, signo.2)
  match leerDigitos base.1 base.2 none with
  | none => none
  | some n => dobleDe (if signo.1 then -(n : Int) else (n : Int))

/-- `s.split(',')` on the characters of `s`. -/
def splitComa : List Char → List (List Char)
  | [] => [[]]
  | c :: cs =>
    if c = ',' then [] :: splitComa cs
    else
      match splitComa cs with
      | [] => [[c]]
      | p :: ps => (c :: p) :: ps

/-- `s.trim()` on the characters of `s`. -/
def trimJS (cs : List Char) : List Char :=
  ((cs.dropWhile esEspacioJS).reverse.dropWhile esEspacioJS).reverse

/-- `s.split(',').map(x => x.trim())`. -/
def splitTrim (s : String) : List String :=
  (splitComa s.data).map (fun p => String.mk (trimJS p))

/-- `s.includes(t)`. -/
def includes (s t : String) : Bool :=
  decide (t.data <:+: s.data)

/-! ## Data model -/

/-- A value bound to a placeholder of a SQL statement. -/
inductive Valor
  /-- a JavaScript boolean -/
  | bool (b : Bool)
  /-- a JavaScript string -/
  | texto (s : String)
  /-- an integer-valued number, `none` for `NaN` or an infinity -/
  | entero (n : Option Int)
  /-- the number `parseFloat(fuente)`, kept symbolic -/
  | flotante (fuente : String)
  /-- an array of strings -/
  | lista (xs : List String)
  deriving DecidableEq, Repr

/-- A row of the `catalogo` table. The type of the `id` column is not declared in the sources:
identifiers are strings, compared for equality with the route parameter. -/
structure Producto where
  id : String
  nombre : String
  tipo : String
  imagen_url : Option String
  precio_base : ℚ
  estilo : Option String
  dimensiones : Option String
  descripcion : Option String
  materiales_disponibles : Option (List String)
  colores_disponibles : Option (List String)
  activo : Bool
  fecha_creacion : Nat
  deriving DecidableEq

/-- A SQL statement handed to `query`, with its bound values. -/
structure Sentencia where
  sql : String
  valores : List Valor
  deriving DecidableEq, Repr

/-- The authenticated caller that the token middleware leaves in `req.usuario`. -/
structure Usuario where
  id : Nat
  rol : String
  deriving DecidableEq, Repr

/-- The query-string parameters read by `GET /catalogo`; `none` is an absent parameter. -/
structure Consulta where
  page : Option String := none
  limit : Option String := none
  search : Option String := none
  tipo : Option String := none
  estilo : Option String := none
  precio_min : Option String := none
  precio_max : Option String := none
  materiales : Option String := none
  colores : Option String := none
  activo : Option String := none
  deriving DecidableEq, Repr

/-- The part of the request `GET /catalogo` reads. -/
structure Peticion where
  usuario : Option Usuario := none
  query : Consulta := {}
  deriving DecidableEq, Repr

/-- The errors the handlers throw, by class. -/
inductive ErrorHttp
  | ValidationError (mensaje : String)
  | UnauthorizedError (mensaje : String)
  | NotFoundError (mensaje : String)
  | ConflictError (mensaje : String)
  /-- a plain `Error`, or an error raised by the database or the runtime -/
  | Error (mensaje : String)
  deriving DecidableEq, Repr

/-- HTTP status of each error class (section 7 of the specification). -/
def ErrorHttp.status : ErrorHttp → Nat
  | .ValidationError _ => 400
  | .UnauthorizedError _ => 401
  | .NotFoundError _ => 404
  | .ConflictError _ => 409
  | .Error _ => 500

/-! ## `GET /catalogo`: the filter builder -/

/-- The three variables the handler threads through the filter construction. -/
structure Filtro where
  whereClause : String
  valores : List Valor
  contador : Nat
  deriving DecidableEq, Repr

/-- `req.usuario?.rol !== 'administrador'`. -/
def noEsAdministrador (req : Peticion) : Bool :=
  match req.usuario with
  | none => true
  | some u => u.rol != "administrador"

/-- `let whereClause = 'WHERE 1=1'; const valores = []; let contador = 1`. -/
def filtroInicial : Filtro :=
  { whereClause := "WHERE 1=1", valores := [], contador := 1 }

/-- Visibility control (lines 81-87); `activo` defaults to `'true'`. -/
def pasoActivo (req : Peticion) (f : Filtro) : Filtro :=
  let activo := req.query.activo.getD "true"
  if noEsAdministrador req then
    { f with whereClause := f.whereClause ++ " AND activo = true" }
  else if activo ≠ "" then
    { whereClause := f.whereClause ++ " AND activo = $" ++ toString f.contador
      valores := f.valores ++ [Valor.bool (activo == "true")]
      contador := f.contador + 1 }
  else f

/-- Text search on name, description or type (lines 90-94). -/
def pasoSearch (req : Peticion) (f : Filtro) : Filtro :=
  let search := req.query.search.getD ""
  if search ≠ "" then
    { whereClause := f.whereClause ++ " AND (nombre ILIKE $" ++ toString f.contador
        ++ " OR descripcion ILIKE $" ++ toString f.contador
        ++ " OR tipo ILIKE $" ++ toString f.contador ++ ")"
      valores := f.valores ++ [Valor.texto ("%" ++ search ++ "%")]
      contador := f.contador + 1 }
  else f

/-- Filter by product type (lines 97-101). -/
def pasoTipo (req : Peticion) (f : Filtro) : Filtro :=
  let tipo := req.query.tipo.getD ""
  if tipo ≠ "" then
    { whereClause := f.whereClause ++ " AND tipo ILIKE $" ++ toString f.contador
      valores := f.valores ++ [Valor.texto ("%" ++ tipo ++ "%")]
      contador := f.contador + 1 }
  else f

/-- Filter by style (lines 104-108). -/
def pasoEstilo (req : Peticion) (f : Filtro) : Filtro :=
  let estilo := req.query.estilo.getD ""
  if estilo ≠ "" then
    { whereClause := f.whereClause ++ " AND estilo ILIKE $" ++ toString f.contador
      valores := f.valores ++ [Valor.texto ("%" ++ estilo ++ "%")]
      contador := f.contador + 1 }
  else f

/-- Minimum price (lines 111-115). -/
def pasoPrecioMin (req : Peticion) (f : Filtro) : Filtro :=
  let precio_min := req.query.precio_min.getD ""
  if precio_min ≠ "" then
    { whereClause := f.whereClause ++ " AND precio_base >= $" ++ toString f.contador
      valores := f.valores ++ [Valor.flotante precio_min]
      contador := f.contador + 1 }
  else f

/-- Maximum price (lines 118-122). -/
def pasoPrecioMax (req : Peticion) (f : Filtro) : Filtro :=
  let precio_max := req.query.precio_max.getD ""
  if precio_max ≠ "" then
    { whereClause := f.whereClause ++ " AND precio_base <= $" ++ toString f.contador
      valores := f.valores ++ [Valor.flotante precio_max]
      contador := f.contador + 1 }
  else f

/-- Overlap with the available materials (lines 125-130). -/
def pasoMateriales (req : Peticion) (f : Filtro) : Filtro :=
  let materiales := req.query.materiales.getD ""
  if materiales ≠ "" then
    { whereClause := f.whereClause ++ " AND materiales_disponibles && $" ++ toString f.contador
      valores := f.valores ++ [Valor.lista (splitTrim materiales)]
      contador := f.contador + 1 }
  else f

/-- Overlap with the available colours (lines 133-138). -/
def pasoColores (req : Peticion) (f : Filtro) : Filtro :=
  let colores := req.query.colores.getD ""
  if colores ≠ "" then
    { whereClause := f.whereClause ++ " AND colores_disponibles && $" ++ toString f.contador
      valores := f.valores ++ [Valor.lista (splitTrim colores)]
      contador := f.contador + 1 }
  else f

/-- The filter in the state in which the count query receives it (lines 76-138). -/
def construirFiltro (req : Peticion) : Filtro :=
  pasoColores req (pasoMateriales req (pasoPrecioMax req (pasoPrecioMin req
    (pasoEstilo req (pasoTipo req (pasoSearch req (pasoActivo req filtroInicial)))))))

/-! ## What the database does with a filter

The WHERE clause is a string; its reading as a list of conditions is `condiciones`, and
`whereClause_eq_sql` below shows that the string the handler builds is the text of that list. -/

/-- The conjuncts the handler can append, with their placeholder index. -/
inductive Condicion
  | activoTrue
  | activoIgual (k : Nat)
  | busqueda (k : Nat)
  | tipoIlike (k : Nat)
  | estiloIlike (k : Nat)
  | precioMin (k : Nat)
  | precioMax (k : Nat)
  | materialesSolapa (k : Nat)
  | coloresSolapa (k : Nat)
  deriving DecidableEq, Repr

/-- SQL text of a conjunct, as appended to the WHERE clause. -/
def Condicion.sql : Condicion → String
  | .activoTrue => " AND activo = true"
  | .activoIgual k => " AND activo = $" ++ toString k
  | .busqueda k => " AND (nombre ILIKE $" ++ toString k ++ " OR descripcion ILIKE $" ++ toString k
      ++ " OR tipo ILIKE $" ++ toString k ++ ")"
  | .tipoIlike k => " AND tipo ILIKE $" ++ toString k
  | .estiloIlike k => " AND estilo ILIKE $" ++ toString k
  | .precioMin k => " AND precio_base >= $" ++ toString k
  | .precioMax k => " AND precio_base <= $" ++ toString k
  | .materialesSolapa k => " AND materiales_disponibles && $" ++ toString k
  | .coloresSolapa k => " AND colores_disponibles && $" ++ toString k

/-- Appends the conjunct of an applied filter, numbering it with the running counter. -/
def agregarCond (aplica : Bool) (c : Nat → Condicion) (acc : List Condicion × Nat) :
    List Condicion × Nat :=
  if aplica then (acc.1 ++ [c acc.2], acc.2 + 1) else acc

/-- The conjunct of the visibility control. -/
def condActivo (req : Peticion) (acc : List Condicion × Nat) : List Condicion × Nat :=
  if noEsAdministrador req then (acc.1 ++ [Condicion.activoTrue], acc.2)
  else agregarCond (decide (req.query.activo.getD "true" ≠ "")) Condicion.activoIgual acc

/-- The conditions of a request in the order the handler appends them, with the counter they
leave. -/
def condicionesAcc (req : Peticion) : List Condicion × Nat :=
  let q := req.query
  agregarCond (decide (q.colores.getD "" ≠ "")) Condicion.coloresSolapa
    (agregarCond (decide (q.materiales.getD "" ≠ "")) Condicion.materialesSolapa
      (agregarCond (decide (q.precio_max.getD "" ≠ "")) Condicion.precioMax
        (agregarCond (decide (q.precio_min.getD "" ≠ "")) Condicion.precioMin
          (agregarCond (decide (q.estilo.getD "" ≠ "")) Condicion.estiloIlike
            (agregarCond (decide (q.tipo.getD "" ≠ "")) Condicion.tipoIlike
              (agregarCond (decide (q.search.getD "" ≠ "")) Condicion.busqueda
                (condActivo req ([], 1))))))))

/-- The conditions of the WHERE clause of a request. -/
def condiciones (req : Peticion) : List Condicion :=
  (condicionesAcc req).1

/-- Text of a WHERE clause made of the given conditions. -/
def sqlWhere (cs : List Condicion) : String :=
  cs.foldl (fun s c => s ++ c.sql) "WHERE 1=1"

/-- Matching of a `LIKE` pattern against a text, both as character lists: `%` matches any
sequence, `_` any one character, and a backslash makes the next pattern character literal;
`escapado` tells that the previous pattern character was such a backslash. A pattern that ends
in a lone backslash is rejected by the database and matches nothing here. -/
def likeAux : Bool → List Char → List Char → Bool
  | true, [], _ => false
  | false, [], t => t.isEmpty
  | true, c :: p, t =>
    match t with
    | [] => false
    | d :: r => d == c && likeAux false p r
  | false, c :: p, t =>
    if c = '%' then t.tails.any (fun s => likeAux false p s)
    else if c = '\\' then likeAux true p t
    else
      match t with
      | [] => false
      | d :: r => (c == '_' || d == c) && likeAux false p r

/-- PostgreSQL `texto LIKE patron` on character lists. -/
def like (patron texto : List Char) : Bool :=
  likeAux false patron texto

/-- Case folding used for `ILIKE`. -/
def plegar (s : String) : List Char :=
  s.data.map Char.toLower

/-- `columna ILIKE patron`: `LIKE` after case folding of both sides. -/
def ilike (columna patron : String) : Bool :=
  like (plegar patron) (plegar columna)

/-- The string contains none of the characters `LIKE` gives a meaning to: `%`, `_` and the
backslash. -/
def sinComodines (s : String) : Prop :=
  ∀ c ∈ s.data, c ≠ '%' ∧ c ≠ '_' ∧ c ≠ '\\'

/-- `s` occurs in `columna` as a substring, letter case apart. -/
def contieneSinCaja (columna s : String) : Prop :=
  plegar s <:+: plegar columna

/-- `columna ILIKE patron` on a nullable column: a NULL column gives NULL, which selects no row. -/
def ilikeNulo (columna : Option String) (patron : String) : Bool :=
  match columna with
  | none => false
  | some c => ilike c patron

/-- `columna && lista`: the arrays have an element in common; NULL selects no row. -/
def solapa (columna : Option (List String)) (lista : List String) : Bool :=
  match columna with
  | none => false
  | some xs => xs.any (fun x => lista.contains x)

/-- What this development leaves to the database engine: the comparisons of a stored price with
a bound JavaScript number `parseFloat(fuente)`, and the execution of the UPDATE statement that
`PUT /catalogo/:id` assembles, which yields the new table and the returned rows, or fails. -/
structure Motor where
  precioMayorIgual : ℚ → String → Bool
  precioMenorIgual : ℚ → String → Bool
  actualizar : Sentencia → List Producto → Except String (List Producto × List Producto)

/-- The `k`-th bound value, for the placeholder of index `k`. -/
def valorDe (valores : List Valor) (k : Nat) : Option Valor :=
  if k = 0 then none else valores.get? (k - 1)

/-- The placeholder index of a conjunct, if it has one. -/
def Condicion.indice : Condicion → Option Nat
  | .activoTrue => none
  | .activoIgual k => some k
  | .busqueda k => some k
  | .tipoIlike k => some k
  | .estiloIlike k => some k
  | .precioMin k => some k
  | .precioMax k => some k
  | .materialesSolapa k => some k
  | .coloresSolapa k => some k

/-- Whether a conjunct constrains the `activo` column. -/
def Condicion.esActivo : Condicion → Bool
  | .activoTrue => true
  | .activoIgual _ => true
  | _ => false

/-- Whether a row satisfies a conjunct under the bound values; a placeholder with no value or
with a value of the wrong type selects no row. -/
def Condicion.cumple (m : Motor) (valores : List Valor) (p : Producto) : Condicion → Bool
  | .activoTrue => p.activo == true
  | .activoIgual k =>
    match valorDe valores k with
    | some (.bool b) => p.activo == b
    | _ => false
  | .busqueda k =>
    match valorDe valores k with
    | some (.texto pat) => ilike p.nombre pat || ilikeNulo p.descripcion pat || ilike p.tipo pat
    | _ => false
  | .tipoIlike k =>
    match valorDe valores k with
    | some (.texto pat) => ilike p.tipo pat
    | _ => false
  | .estiloIlike k =>
    match valorDe valores k with
    | some (.texto pat) => ilikeNulo p.estilo pat
    | _ => false
  | .precioMin k =>
    match valorDe valores k with
    | some (.flotante fuente) => m.precioMayorIgual p.precio_base fuente
    | _ => false
  | .precioMax k =>
    match valorDe valores k with
    | some (.flotante fuente) => m.precioMenorIgual p.precio_base fuente
    | _ => false
  | .materialesSolapa k =>
    match valorDe valores k with
    | some (.lista xs) => solapa p.materiales_disponibles xs
    | _ => false
  | .coloresSolapa k =>
    match valorDe valores k with
    | some (.lista xs) => solapa p.colores_disponibles xs
    | _ => false

/-- The rows selected by `FROM catalogo WHERE ...` for the conditions and bound values. -/
def seleccionar (m : Motor) (cs : List Condicion) (valores : List Valor)
    (catalogo : List Producto) : List Producto :=
  catalogo.filter (fun p => cs.all (fun c => c.cumple m valores p))

/-- Agreement between the handler's three variables and the parsed conditions: the clause is the
text of the conditions, the counters coincide, the counter is one more than the number of bound
values, and every placeholder index lies between 1 and the number of bound values. -/
structure Acorde (f : Filtro) (acc : List Condicion × Nat) : Prop where
  texto : f.whereClause = sqlWhere acc.1
  cuenta : f.contador = acc.2
  largo : f.valores.length + 1 = f.contador
  indices : ∀ c ∈ acc.1, ∀ k, c.indice = some k → 0 < k ∧ k < acc.2

/-- Whether a row satisfies every conjunct of the request's filter under its bound values. -/
def cumpleFiltro (m : Motor) (req : Peticion) (p : Producto) : Bool :=
  (condiciones req).all (fun c => c.cumple m (construirFiltro req).valores p)

/-- The request with its `activo` query parameter replaced. -/
def conActivo (req : Peticion) (a : Option String) : Peticion :=
  { req with query := { req.query with activo := a } }

/-- An administrator, for evaluating the handlers on concrete requests. -/
def administrador : Usuario :=
  { id := 1, rol := "administrador" }

/-- An administrator's request for deactivated products matching a text search. -/
def peticionAdminInactivos : Peticion :=
  { usuario := some administrador
    query := { search := some "mesa", activo := some "false" } }

/-- An anonymous request that searches for a text with the one-character wildcard. -/
def peticionComodin : Peticion :=
  { query := { search := some "m_sa" } }

/-- A deactivated product, for evaluating the handlers on concrete catalogues. -/
def sillaInactiva : Producto :=
  { id := "2", nombre := "Silla Nordica", tipo := "silla", imagen_url := none, precio_base := 50
    estilo := some "nordico", dimensiones := none, descripcion := none
    materiales_disponibles := some ["pino"], colores_disponibles := none
    activo := false, fecha_creacion := 6 }

/-- An active product, for evaluating the handlers on concrete catalogues. -/
def mesaActiva : Producto :=
  { id := "1", nombre := "Mesa Roble", tipo := "mesa", imagen_url := none, precio_base := 100
    estilo := none, dimensiones := none, descripcion := some "Mesa de comedor"
    materiales_disponibles := some ["roble"], colores_disponibles := none
    activo := true, fecha_creacion := 5 }

/-- An engine that compares no price and executes an UPDATE as a no-op, for evaluating the
handlers on concrete requests that do not depend on it. -/
def motorNeutro : Motor :=
  { precioMayorIgual := fun _ _ => true
    precioMenorIgual := fun _ _ => true
    actualizar := fun _ c => .ok (c, []) }

/-! ## `GET /catalogo`: the handler -/

/-- `parseInt(page)`, with `page = 1` when absent. -/
def paginaDe (q : Consulta) : Option Int :=
  match q.page with
  | none => some 1
  | some s => parseInt s

/-- `parseInt(limit)`, with `limit = 12` when absent. -/
def limiteDe (q : Consulta) : Option Int :=
  match q.limit with
  | none => some 12
  | some s => parseInt s

/-- `(parseInt(page) - 1) * parseInt(limit)` (line 73): the difference and the product are
each rounded to a double; `NaN` and the infinities propagate as `none`. -/
def offsetDe (q : Consulta) : Option Int :=
  match paginaDe q, limiteDe q with
  | some p, some l =>
    match dobleDe (p - 1) with
    | some d => dobleDe (d * l)
    | none => none
  | _, _ => none

/-- The bound values of the page query: `valores.push(parseInt(limit), offset)` (line 148). -/
def valoresPagina (req : Peticion) : List Valor :=
  (construirFiltro req).valores ++ [Valor.entero (limiteDe req.query), Valor.entero (offsetDe req.query)]

/-- The last line of the page query: `LIMIT $contador OFFSET $(contador + 1)` (line 157). -/
def clausulaLimite (f : Filtro) : String :=
  "LIMIT $" ++ toString f.contador ++ " OFFSET $" ++ toString (f.contador + 1)

/-- `Math.ceil(total / parseInt(limit))` (line 167) for a limit that parses to the integer `l`,
as it reaches the JSON response, the quotient being a double: `Infinity` and `NaN`, the
quotients by zero, are serialised as `null`. -/
def paginasDe (total : Nat) (l : Int) : Option Int :=
  if l = 0 then none
  else if 0 < l then
    let c := cocienteDoble total l.toNat
    some (((c.1 + c.2 - 1) / c.2 : Nat) : Int)
  else
    let c := cocienteDoble total (-l).toNat
    some (-((c.1 / c.2 : Nat) : Int))

/-- The `pagination` object of the response. -/
structure Paginacion where
  page : Option Int
  limit : Option Int
  total : Nat
  pages : Option Int
  deriving DecidableEq

/-- The body of the response of `GET /catalogo`, without `filtros_aplicados`, which echoes the
query parameters. -/
structure RespuestaCatalogo where
  message : String
  productos : List Producto
  pagination : Paginacion
  deriving DecidableEq

/-- `ORDER BY fecha_creacion DESC`. -/
def ordenar (filas : List Producto) : List Producto :=
  filas.insertionSort (fun a b => b.fecha_creacion ≤ a.fecha_creacion)

/-- The binding of `query` in `catalogo.js` as it stands: `config/database.js` exports no
`query`, so the destructured name is `undefined`. -/
def queryDeCatalogo : Option Motor :=
  none

/-- `parseInt(totalResult.rows[0].total)` for a count of rows, which is below `2^63`. -/
def totalDe (cuenta : Nat) : Nat :=
  match dobleDeNat cuenta with
  | some d => d
  | none => cuenta

/-- `GET /catalogo` (lines 59-173) under a binding of `query`. With none, the count query at
line 141 throws `TypeError: query is not a function`. With a database, the count query selects
with the filter's WHERE clause and values; the page query selects with the same clause, orders,
and applies the LIMIT and OFFSET bound last, which the database rejects when they are `NaN`,
infinite, negative, or not below `2^63`. The page count is taken on the limit so bound, which
is `parseInt(limit)` at line 148 as at line 167. -/
def listarCatalogo (query : Option Motor) (catalogo : List Producto) (req : Peticion) :
    Except ErrorHttp RespuestaCatalogo :=
  let f := construirFiltro req
  match query with
  | none => .error (.Error "query is not a function")
  | some m =>
    let total := totalDe (seleccionar m (condiciones req) f.valores catalogo).length
    let filas := ordenar (seleccionar m (condiciones req) (valoresPagina req) catalogo)
    match valorDe (valoresPagina req) f.contador,
        valorDe (valoresPagina req) (f.contador + 1) with
    | some (.entero (some l)), some (.entero (some o)) =>
      if l < 0 ∨ o < 0 ∨ 2 ^ 63 ≤ l ∨ 2 ^ 63 ≤ o then .error (.Error "error de base de datos")
      else
        .ok { message := "Catálogo obtenido exitosamente"
              productos := (filas.drop o.toNat).take l.toNat
              pagination :=
                { page := paginaDe req.query
                  limit := limiteDe req.query
                  total := total
                  pages := paginasDe total l } }
    | _, _ => .error (.Error "error de base de datos")

/-- A request for page 94906268 with a limit of 94906267, whose exact offset
`94906267 * 94906267 = 2^53 + 261134297` is odd and so not a double. -/
def peticionPaginaLejana : Peticion :=
  { query := { page := some "94906268", limit := some "94906267" } }

/-- A request for page 3 with a limit of 5. -/
def peticionPaginaTres : Peticion :=
  { query := { page := some "3", limit := some "5" } }

/-! ## Mutations of the catalogue -/

/-- Outcome of a mutating handler: what it answers or throws, the table it leaves, and the
statements it has handed to `query`, in order. -/
structure Efecto (α : Type) where
  respuesta : Except ErrorHttp α
  catalogo : List Producto
  emitidas : List Sentencia

/-- `SELECT ... FROM catalogo WHERE id = $1`. -/
def buscarPorId (catalogo : List Producto) (id : String) : List Producto :=
  catalogo.filter (fun p => p.id == id)

/-- `UPDATE catalogo SET activo = <b> WHERE id = $1`. -/
def fijarActivo (b : Bool) (id : String) (catalogo : List Producto) : List Producto :=
  catalogo.map (fun p => if p.id = id then { p with activo := b } else p)

/-- `Object.entries(value)` of the validated body; a value of `none` is `undefined`. -/
abbrev Cuerpo := List (String × Option Valor)

/-- The three variables of the update builder of `PUT /catalogo/:id` (lines 269-271). -/
structure Actualizacion where
  campos : List String
  valores : List Valor
  contador : Nat
  deriving DecidableEq, Repr

/-- The body of the `forEach` callback (lines 273-279). -/
def pasoCampo (a : Actualizacion) (entrada : String × Option Valor) : Actualizacion :=
  match entrada.2 with
  | some valor =>
    { campos := a.campos ++ [entrada.1 ++ " = $" ++ toString a.contador]
      valores := a.valores ++ [valor]
      contador := a.contador + 1 }
  | none => a

/-- `Object.entries(value).forEach(...)` from the empty lists and counter 1. -/
def construirActualizacion (value : Cuerpo) : Actualizacion :=
  value.foldl pasoCampo { campos := [], valores := [], contador := 1 }

/-- The fields of the validated body whose value is not `undefined`, with their values, in the
body's order. -/
def suministrados (value : Cuerpo) : List (String × Valor) :=
  value.filterMap (fun entrada => entrada.2.map (fun valor => (entrada.1, valor)))

/-- The assignments `campo = $k` for the given fields, numbered from `desde`. -/
def asignaciones (desde : Nat) (campos : List (String × Valor)) : List String :=
  (campos.enumFrom desde).map (fun x => x.2.1 ++ " = $" ++ toString x.1)

/-- The WHERE line of the UPDATE statement (line 291). -/
def whereUpdate (a : Actualizacion) : String :=
  "WHERE id = $" ++ toString a.contador

/-- The UPDATE statement and its values after `valores.push(id)` (lines 285-293). -/
def sentenciaUpdate (a : Actualizacion) (id : String) : Sentencia :=
  { sql := "\n    UPDATE catalogo \n    SET " ++ ", ".intercalate a.campos ++ "\n    "
      ++ whereUpdate a ++ "\n    RETURNING *\n  "
    valores := a.valores ++ [Valor.texto id] }

/-- The existence check of `PUT /catalogo/:id` (line 263). -/
def sentenciaExiste (id : String) : Sentencia :=
  { sql := "SELECT id FROM catalogo WHERE id = $1", valores := [Valor.texto id] }

/-- What a handler of `catalogo.js` does at its first call of `query` when the name is not
bound to a function: it throws `TypeError: query is not a function`, having handed no
statement to a database. -/
def sinQuery {α : Type} (catalogo : List Producto) : Efecto α :=
  { respuesta := .error (.Error "query is not a function"), catalogo := catalogo, emitidas := [] }

/-- `PUT /catalogo/:id` (lines 254-308) under a binding of `query`, after the token and
administrator middlewares. `validado` is the outcome of
`actualizarProductoSchema.validate(req.body)`: the message of the first error, or the validated
value. The first call of `query` is the existence check of line 263. -/
def actualizarProducto (query : Option Motor) (catalogo : List Producto) (id : String)
    (validado : Except String Cuerpo) : Efecto (String × Option Producto) :=
  match validado with
  | .error mensaje =>
    { respuesta := .error (.ValidationError mensaje), catalogo := catalogo, emitidas := [] }
  | .ok value =>
    match query with
    | none => sinQuery catalogo
    | some m =>
      if (buscarPorId catalogo id).length = 0 then
        { respuesta := .error (.NotFoundError "Producto no encontrado en el catálogo")
          catalogo := catalogo
          emitidas := [sentenciaExiste id] }
      else
        let a := construirActualizacion value
        if a.campos.length = 0 then
          { respuesta := .error (.ValidationError "No se proporcionaron campos para actualizar")
            catalogo := catalogo
            emitidas := [sentenciaExiste id] }
        else
          match m.actualizar (sentenciaUpdate a id) catalogo with
          | .error mensaje =>
            { respuesta := .error (.Error mensaje)
              catalogo := catalogo
              emitidas := [sentenciaExiste id, sentenciaUpdate a id] }
          | .ok (nuevo, filas) =>
            { respuesta := .ok ("Producto actualizado exitosamente", filas.head?)
              catalogo := nuevo
              emitidas := [sentenciaExiste id, sentenciaUpdate a id] }

/-- A validated body that supplies a name and an active flag and leaves the type undefined. -/
def cuerpoEjemplo : Cuerpo :=
  [("nombre", some (Valor.texto "Mesa Nogal")), ("tipo", none), ("activo", some (Valor.bool true))]

/-- The existence check of `DELETE /catalogo/:id` (line 318). -/
def sentenciaExisteNombre (id : String) : Sentencia :=
  { sql := "SELECT id, nombre FROM catalogo WHERE id = $1", valores := [Valor.texto id] }

/-- The statement `DELETE /catalogo/:id` issues on an existing product (line 325). -/
def sentenciaDesactivar (id : String) : Sentencia :=
  { sql := "UPDATE catalogo SET activo = false WHERE id = $1", valores := [Valor.texto id] }

/-- `DELETE /catalogo/:id` (lines 314-337) under a binding of `query`, after the token and
administrator middlewares. The first call of `query` is the existence check of line 318. -/
def eliminarProducto (query : Option Motor) (catalogo : List Producto) (id : String) :
    Efecto String :=
  match query with
  | none => sinQuery catalogo
  | some _ =>
    if (buscarPorId catalogo id).length = 0 then
      { respuesta := .error (.NotFoundError "Producto no encontrado en el catálogo")
        catalogo := catalogo
        emitidas := [sentenciaExisteNombre id] }
    else
      { respuesta := .ok "Producto desactivado exitosamente del catálogo"
        catalogo := fijarActivo false id catalogo
        emitidas := [sentenciaExisteNombre id, sentenciaDesactivar id] }

/-! ## `POST /usuarios/registrar` -/

/-- The body `data` of a remote response: `undefined`, `null`, or any other value, with its
property `message` if it has one. -/
inductive DatosRemotos
  | indefinido
  | nulo
  | valor (message : Option String)
  deriving DecidableEq, Repr

/-- The `response` of an error of the remote call: its status and its body `data`. -/
structure RespuestaRemota where
  status : Nat
  data : DatosRemotos
  deriving DecidableEq, Repr

/-- An error thrown by the remote backend client; `response` is absent when no answer came. -/
structure ErrorRemoto where
  response : Option RespuestaRemota
  message : String
  deriving DecidableEq, Repr

/-- `error.response?.status`. -/
def ErrorRemoto.status (e : ErrorRemoto) : Option Nat :=
  e.response.map (fun r => r.status)

/-- `x || porDefecto` on an optional string: absent and empty strings are falsy. -/
def oPorDefecto (x : Option String) (porDefecto : String) : String :=
  match x with
  | some s => if s ≠ "" then s else porDefecto
  | none => porDefecto

/-- The `catch` block of the registration handler (lines 120-138): the error that leaves it.
In the branch of status 400, line 127 reads `error.response.data.message` with no guard on
`data`: on a body that is `undefined` or `null` the read throws a `TypeError`, which leaves the
handler in place of the validation error. -/
def errorRegistro (e : ErrorRemoto) : ErrorHttp :=
  if e.status == some 409 || includes e.message "duplicate"
      || includes e.message "already exists" then
    .ConflictError "El correo electrónico ya está registrado"
  else if e.status == some 400 then
    match e.response with
    | none => .Error "Cannot read properties of undefined (reading 'data')"
    | some r =>
      match r.data with
      | .indefinido => .Error "Cannot read properties of undefined (reading 'message')"
      | .nulo => .Error "Cannot read properties of null (reading 'message')"
      | .valor message => .ValidationError (oPorDefecto message "Datos de registro inválidos")
  else
    .Error "Error interno del servidor durante el registro"

/-- The test of the first branch of the `catch` block (line 122): status 409, or a message
that contains `duplicate` or `already exists`. -/
def esDuplicado (e : ErrorRemoto) : Bool :=
  e.status == some 409 || includes e.message "duplicate" || includes e.message "already exists"

/-- A remote error of status 400 whose message tells of a duplicate key. -/
def errorDuplicado400 : ErrorRemoto :=
  { response := some { status := 400, data := .valor (some "Bad request") }
    message := "duplicate key value violates unique constraint" }

/-- A remote error of status 400 whose response has no body: `data` is `undefined`. -/
def error400SinDatos : ErrorRemoto :=
  { response := some { status := 400, data := .indefinido }
    message := "Request failed with status code 400" }

/-- The validated registration payload handed to the remote backend. -/
structure DatosRegistro where
  nombre : String
  email : String
  password : String
  telefono : Option String
  deriving DecidableEq, Repr

/-- The user record in the remote backend's answer. -/
structure UsuarioRemoto where
  id : Nat
  nombre : String
  email : String
  telefono : Option String
  rol : Option String
  created_at : Option String
  deriving DecidableEq, Repr

/-- The remote backend's answer to a registration. -/
structure AltaRemota where
  authToken : String
  user : UsuarioRemoto
  deriving DecidableEq, Repr

/-- The body of the 201 response of a registration. -/
structure RespuestaRegistro where
  message : String
  token : String
  refreshToken : String
  usuario : UsuarioRemoto
  deriving DecidableEq, Repr

/-- `POST /usuarios/registrar` (lines 77-139). `validado` is the outcome of
`registroSchema.validate(req.body)` and `register` is `xanoService.register`; the payload sent
carries `telefono || null`, and the answered role is `user.rol || 'cliente'`. -/
def registrar (validado : Except String DatosRegistro)
    (register : DatosRegistro → Except ErrorRemoto AltaRemota) :
    Except ErrorHttp (Nat × RespuestaRegistro) :=
  match validado with
  | .error mensaje => .error (.ValidationError mensaje)
  | .ok value =>
    match register { value with
        telefono := value.telefono.bind (fun t => if t ≠ "" then some t else none) } with
    | .ok alta =>
      .ok (201,
        { message := "Usuario registrado exitosamente"
          token := alta.authToken
          refreshToken := alta.authToken
          usuario := { alta.user with rol := some (oPorDefecto alta.user.rol "cliente") } })
    | .error e => .error (errorRegistro e)

/-! ## `POST /catalogo/:id/activar` -/

/-- The existence check of `POST /catalogo/:id/activar` (line 347). -/
def sentenciaExisteActivo (id : String) : Sentencia :=
  { sql := "SELECT id, nombre, activo FROM catalogo WHERE id = $1", valores := [Valor.texto id] }

/-- The statement `POST /catalogo/:id/activar` issues on a deactivated product (line 358). -/
def sentenciaActivar (id : String) : Sentencia :=
  { sql := "UPDATE catalogo SET activo = true WHERE id = $1", valores := [Valor.texto id] }

/-- `POST /catalogo/:id/activar` (lines 343-370) under a binding of `query`, after the token
and administrator middlewares. The first call of `query` is the lookup of line 347;
`rows[0].activo` is the flag of the first row found. -/
def activarProducto (query : Option Motor) (catalogo : List Producto) (id : String) :
    Efecto String :=
  match query with
  | none => sinQuery catalogo
  | some _ =>
    let productoExistente := buscarPorId catalogo id
    match productoExistente with
    | [] =>
      { respuesta := .error (.NotFoundError "Producto no encontrado en el catálogo")
        catalogo := catalogo
        emitidas := [sentenciaExisteActivo id] }
    | fila :: _ =>
      if fila.activo then
        { respuesta := .error (.ValidationError "El producto ya está activo")
          catalogo := catalogo
          emitidas := [sentenciaExisteActivo id] }
      else
        { respuesta := .ok "Producto reactivado exitosamente en el catálogo"
          catalogo := fijarActivo true id catalogo
          emitidas := [sentenciaExisteActivo id, sentenciaActivar id] }

/-! ## `POST /login` -/

/-- The `catch` block of the login handler (lines 185-207): the error it throws. -/
def errorLogin (e : ErrorRemoto) : ErrorHttp :=
  if e.status == some 401 || e.status == some 403 then
    .UnauthorizedError "Credenciales inválidas. Verifica tu email y contraseña"
  else if e.status == some 404 then
    .UnauthorizedError "Usuario no encontrado. Verifica tu email o regístrate"
  else if e.status == some 400 then
    .ValidationError "Datos de inicio de sesión inválidos"
  else
    .UnauthorizedError "Error durante el inicio de sesión. Intenta nuevamente"

/-- The validated login payload. -/
structure Credenciales where
  email : String
  password : String
  deriving DecidableEq, Repr

/-- The body of the response of a successful login. -/
structure RespuestaLogin where
  message : String
  token : String
  refreshToken : String
  usuario : UsuarioRemoto
  deriving DecidableEq, Repr

/-- `POST /login` (lines 145-208). `validado` is the outcome of `loginSchema.validate(req.body)`
and `loginRemoto` is `xanoService.login`; the answered user carries `user.rol || 'cliente'` and
no registration date. -/
def login (validado : Except String Credenciales)
    (loginRemoto : Credenciales → Except ErrorRemoto AltaRemota) :
    Except ErrorHttp RespuestaLogin :=
  match validado with
  | .error mensaje => .error (.ValidationError mensaje)
  | .ok value =>
    match loginRemoto value with
    | .ok alta =>
      .ok { message := "Inicio de sesión exitoso"
            token := alta.authToken
            refreshToken := alta.authToken
            usuario := { alta.user with
              rol := some (oPorDefecto alta.user.rol "cliente"), created_at := none } }
    | .error e => .error (errorLogin e)

/-- A remote error that carries no response, as when the backend cannot be reached. -/
def errorSinRespuesta : ErrorRemoto :=
  { response := none, message := "connect ECONNREFUSED" }

/-! ## The request interceptor of the outbound client -/

/-- `s.startsWith(t)`. -/
def startsWith (s t : String) : Bool :=
  t.data.isPrefixOf s.data

/-- `a || b` on optional strings: `a` when it is a non-empty string, else `b`. -/
def oSiNo (a b : Option String) : Option String :=
  match a with
  | some s => if s ≠ "" then some s else b
  | none => b

/-- The `Authorization` header the request interceptor leaves (lines 20-24 of
`config/database.js`), from the header of the request and `process.env.XANO_API_KEY`. -/
def interceptarAuthorization (apiKey authorization : Option String) : Option String :=
  match oSiNo authorization apiKey with
  | some token =>
    if token ≠ "" then some (if startsWith token "Bearer " then token else "Bearer " ++ token)
    else authorization
  | none => authorization

/-! ## Alignment of placeholders and bound values -/

/-- The value the handler pushes for the filter a condition comes from; the literal conjunct
of the visibility control binds none. -/
def valorLigado (req : Peticion) : Condicion → Option Valor
  | .activoTrue => none
  | .activoIgual _ => some (Valor.bool (req.query.activo.getD "true" == "true"))
  | .busqueda _ => some (Valor.texto ("%" ++ req.query.search.getD "" ++ "%"))
  | .tipoIlike _ => some (Valor.texto ("%" ++ req.query.tipo.getD "" ++ "%"))
  | .estiloIlike _ => some (Valor.texto ("%" ++ req.query.estilo.getD "" ++ "%"))
  | .precioMin _ => some (Valor.flotante (req.query.precio_min.getD ""))
  | .precioMax _ => some (Valor.flotante (req.query.precio_max.getD ""))
  | .materialesSolapa _ => some (Valor.lista (splitTrim (req.query.materiales.getD "")))
  | .coloresSolapa _ => some (Valor.lista (splitTrim (req.query.colores.getD "")))

/-- The query parameter, or the visibility control, that a condition comes from. -/
def Condicion.filtro : Condicion → String
  | .activoTrue => "activo"
  | .activoIgual _ => "activo"
  | .busqueda _ => "search"
  | .tipoIlike _ => "tipo"
  | .estiloIlike _ => "estilo"
  | .precioMin _ => "precio_min"
  | .precioMax _ => "precio_max"
  | .materialesSolapa _ => "materiales"
  | .coloresSolapa _ => "colores"

/-- The filters that apply, in the order of the handler, as a function of the same flags as
`condicionesPor`: the visibility control applies to a caller who is no administrator and to an
administrator whose `activo` is not empty. -/
def filtrosPor (noAdmin activo search tipo estilo precioMin precioMax materiales
    colores : Bool) : List String :=
  (if noAdmin || activo then ["activo"] else [])
    ++ (if search then ["search"] else [])
    ++ (if tipo then ["tipo"] else [])
    ++ (if estilo then ["estilo"] else [])
    ++ (if precioMin then ["precio_min"] else [])
    ++ (if precioMax then ["precio_max"] else [])
    ++ (if materiales then ["materiales"] else [])
    ++ (if colores then ["colores"] else [])

/-- The filters a request applies: each optional filter whose parameter is a non-empty string,
after the visibility control. -/
def filtrosAplicados (req : Peticion) : List String :=
  let q := req.query
  filtrosPor (noEsAdministrador req) (decide (q.activo.getD "true" ≠ ""))
    (decide (q.search.getD "" ≠ "")) (decide (q.tipo.getD "" ≠ ""))
    (decide (q.estilo.getD "" ≠ "")) (decide (q.precio_min.getD "" ≠ ""))
    (decide (q.precio_max.getD "" ≠ "")) (decide (q.materiales.getD "" ≠ ""))
    (decide (q.colores.getD "" ≠ ""))

/-- Placeholders and values are aligned: the placeholder indices of the conditions, in order,
are 1 to the number of bound values, and the value at the index of a condition is the one its
filter pushes. -/
structure Alineado (req : Peticion) (f : Filtro) (acc : List Condicion × Nat) : Prop where
  enOrden : acc.1.filterMap Condicion.indice = List.range' 1 f.valores.length
  ligados : ∀ c ∈ acc.1, ∀ k, c.indice = some k → valorDe f.valores k = valorLigado req c
  nombres : ∀ c ∈ acc.1, c.indice = none → c = Condicion.activoTrue

/-- Number of positions of a text at which a pattern occurs. -/
def ocurrencias (patron : List Char) : List Char → Nat
  | [] => if patron.isPrefixOf [] then 1 else 0
  | c :: cs => (if patron.isPrefixOf (c :: cs) then 1 else 0) + ocurrencias patron cs

/-- The text does not end in a character of the pattern ` AND `, so that no occurrence of the
pattern can start in it and end in what follows. -/
def finLibre (s : List Char) : Prop :=
  ∀ c, s.getLast? = some c → c ≠ ' ' ∧ c ≠ 'A' ∧ c ≠ 'N' ∧ c ≠ 'D'

/-- The conditions of a request as a function of which filters apply: whether the caller is
no administrator, whether `activo` is not empty, and whether each optional parameter is a
non-empty string. -/
def condicionesPor (noAdmin activo search tipo estilo precioMin precioMax materiales
    colores : Bool) : List Condicion :=
  (agregarCond colores Condicion.coloresSolapa
    (agregarCond materiales Condicion.materialesSolapa
      (agregarCond precioMax Condicion.precioMax
        (agregarCond precioMin Condicion.precioMin
          (agregarCond estilo Condicion.estiloIlike
            (agregarCond tipo Condicion.tipoIlike
              (agregarCond search Condicion.busqueda
                (if noAdmin then ([Condicion.activoTrue], 1)
                 else agregarCond activo Condicion.activoIgual ([], 1))))))))).1

/-- A request that applies every filter, from an administrator. -/
def peticionCompleta : Peticion :=
  { usuario := some administrador
    query :=
      { page := some "2", limit := some "5", search := some "mesa", tipo := some "mesa"
        estilo := some "nordico", precio_min := some "10", precio_max := some "900.50"
        materiales := some "roble, pino ,nogal", colores := some " blanco,negro"
        activo := some "false" } }

/-! ## Tokens: `POST /refresh-token` and `GET /verify-token`

`auth.js` calls `query` in these two handlers but neither imports nor declares it: lines 1-8
bring in `express`, `bcryptjs`, `jsonwebtoken`, `joi`, the remote service, the error classes
and the logger. The handlers below take the binding of that identifier as a parameter: `none` is
the file as it stands, where evaluating `query` throws a `ReferenceError`; `some` is the file
with the database call in scope, as `catalogo.js` has it. -/

/-- The claims of a decoded token that the handlers read or write. -/
structure Payload where
  userId : Nat
  correo : String
  rol : String
  exp : Nat
  deriving DecidableEq, Repr

/-- A row of the `usuarios` table. -/
structure UsuarioFila where
  id : Nat
  nombre : String
  correo : String
  rol : String
  activo : Bool
  deriving DecidableEq, Repr

/-- The `jsonwebtoken` library under `process.env.JWT_SECRET` at the time of the request:
`sign` is `jwt.sign({userId, correo, rol}, JWT_SECRET, {expiresIn, issuer, audience})`, and
`verify token ignoreExpiration` is `jwt.verify(token, JWT_SECRET, {ignoreExpiration})`, which
returns the payload or throws an error of the given `name`. -/
structure Jwt where
  sign : Nat → String → String → String
  verify : Option String → Bool → Except String Payload

/-- `query('SELECT ... FROM usuarios WHERE id = $1', [id])` as a function of the id. -/
abbrev ConsultaUsuarios := Nat → List UsuarioFila

/-- The database call on a table of users. -/
def buscarUsuario (usuarios : List UsuarioFila) : ConsultaUsuarios :=
  fun id => usuarios.filter (fun u => u.id == id)

/-- The binding of `query` in `auth.js` as it stands: none. -/
def queryDeAuth : Option ConsultaUsuarios :=
  none

/-- What a handler of `auth.js` throws: one of the HTTP error classes, or another error with
its `name` and message. -/
inductive Excepcion
  | http (e : ErrorHttp)
  | otro (name : String) (message : String)
  deriving DecidableEq, Repr

/-- `error.name`: the class name of an HTTP error, or the name the error carries. -/
def Excepcion.name : Excepcion → String
  | .http (.ValidationError _) => "ValidationError"
  | .http (.UnauthorizedError _) => "UnauthorizedError"
  | .http (.NotFoundError _) => "NotFoundError"
  | .http (.ConflictError _) => "ConflictError"
  | .http (.Error _) => "Error"
  | .otro name _ => name

/-- `error.name === 'JsonWebTokenError'`. -/
def Excepcion.esJsonWebTokenError (e : Excepcion) : Bool :=
  e.name == "JsonWebTokenError"

/-- `generarToken(usuario)` (lines 56-70). -/
def generarToken (jwt : Jwt) (usuario : UsuarioFila) : String :=
  jwt.sign usuario.id usuario.correo usuario.rol

/-- The body of the response of a token renewal. -/
structure RespuestaRefresh where
  message : String
  token : String
  expiresIn : String
  deriving DecidableEq, Repr

/-- Whether an optional string is truthy. -/
def esVerdadero (x : Option String) : Bool :=
  match x with
  | some s => s ≠ ""
  | none => false

/-- `POST /refresh-token` (lines 233-279). `token` is `req.body.token` and `expiresIn` is
`process.env.JWT_EXPIRES_IN || '24h'`. -/
def refreshToken (query : Option ConsultaUsuarios) (jwt : Jwt) (expiresIn : String)
    (token : Option String) : Except Excepcion RespuestaRefresh :=
  if esVerdadero token = false then
    .error (.http (.ValidationError "Token requerido para renovación"))
  else
    let intento : Except Excepcion RespuestaRefresh :=
      match jwt.verify token true with
      | .error name => .error (.otro name "")
      | .ok decoded =>
        match query with
        | none => .error (.otro "ReferenceError" "query is not defined")
        | some q =>
          match q decoded.userId with
          | [] => .error (.http (.UnauthorizedError "Usuario no válido para renovación de token"))
          | usuario :: _ =>
            if usuario.activo = false then
              .error (.http (.UnauthorizedError "Usuario no válido para renovación de token"))
            else
              .ok { message := "Token renovado exitosamente"
                    token := generarToken jwt usuario
                    expiresIn := expiresIn }
    match intento with
    | .ok r => .ok r
    | .error e =>
      if e.esJsonWebTokenError then
        .error (.http (.UnauthorizedError "Token inválido para renovación"))
      else .error e

/-- `s.split(' ')` on the characters of `s`. -/
def splitEspacio : List Char → List (List Char)
  | [] => [[]]
  | c :: cs =>
    if c = ' ' then [] :: splitEspacio cs
    else
      match splitEspacio cs with
      | [] => [[c]]
      | p :: ps => (c :: p) :: ps

/-- `authHeader.split(' ')[1]`. -/
def tokenDeCabecera (authHeader : String) : Option String :=
  ((splitEspacio authHeader.data).get? 1).map String.mk

/-- The response of `GET /verify-token`: its status and the fields of its body; `expiresAt` is
the moment `new Date(decoded.exp * 1000)` in milliseconds. -/
structure RespuestaVerify where
  status : Nat
  valid : Bool
  message : String
  expiresAt : Option Nat
  deriving DecidableEq, Repr

/-- `GET /verify-token` (lines 285-330). `authHeader` is `req.headers.authorization`. -/
def verifyToken (query : Option ConsultaUsuarios) (jwt : Jwt) (authHeader : Option String) :
    RespuestaVerify :=
  match authHeader with
  | none => { status := 401, valid := false, message := "Token no proporcionado", expiresAt := none }
  | some cabecera =>
    if cabecera = "" then
      { status := 401, valid := false, message := "Token no proporcionado", expiresAt := none }
    else
      let intento : Except Excepcion RespuestaVerify :=
        match jwt.verify (tokenDeCabecera cabecera) false with
        | .error name => .error (.otro name "")
        | .ok decoded =>
          match query with
          | none => .error (.otro "ReferenceError" "query is not defined")
          | some q =>
            match q decoded.userId with
            | [] =>
              .ok { status := 401, valid := false, message := "Usuario no válido"
                    expiresAt := none }
            | usuario :: _ =>
              if usuario.activo = false then
                .ok { status := 401, valid := false, message := "Usuario no válido"
                      expiresAt := none }
              else
                .ok { status := 200, valid := true, message := "Token válido"
                      expiresAt := some (decoded.exp * 1000) }
      match intento with
      | .ok r => r
      | .error e =>
        { status := 401, valid := false
          message := if e.name = "TokenExpiredError" then "Token expirado" else "Token inválido"
          expiresAt := none }

/-- An active user, for evaluating the handlers on concrete tables. -/
def usuarioActivo : UsuarioFila :=
  { id := 7, nombre := "Ana", correo := "ana@example.com", rol := "cliente", activo := true }

/-- A token library for evaluating the handlers: the one token `tok-ana` verifies, as signed
for the user 7 with expiry 2000000000, and every other token is rejected as badly signed. -/
def jwtEjemplo : Jwt :=
  { sign := fun id correo rol => "tok:" ++ toString id ++ ":" ++ correo ++ ":" ++ rol
    verify := fun token _ =>
      if token = some "tok-ana" then
        .ok { userId := 7, correo := "ana@example.com", rol := "cliente", exp := 2000000000 }
      else .error "JsonWebTokenError" }

/-! ## The filter builder and its reading as conditions -/

theorem sqlWhere_append (cs : List Condicion) (c : Condicion) :
    sqlWhere (cs ++ [c]) = sqlWhere cs ++ c.sql := by
  simp [sqlWhere, List.foldl_append]

theorem acorde_inicial : Acorde filtroInicial ([], 1) :=
  ⟨rfl, rfl, rfl, by simp⟩

theorem acorde_agregar {f : Filtro} {acc : List Condicion × Nat} (h : Acorde f acc)
    (c : Nat → Condicion) (v : Valor) (hi : ∀ k, (c k).indice = some k) :
    Acorde { whereClause := f.whereClause ++ (c f.contador).sql, valores := f.valores ++ [v],
             contador := f.contador + 1 } (acc.1 ++ [c acc.2], acc.2 + 1) := by
  refine ⟨?_, ?_, ?_, ?_⟩
  · simp [sqlWhere_append, h.texto, h.cuenta]
  · simp [h.cuenta]
  · simp [h.largo]
  · intro d hd k hk
    rcases List.mem_append.1 hd with hd | hd
    · have := h.indices d hd k hk
      exact ⟨this.1, by simp; omega⟩
    · simp at hd
      subst hd
      rw [hi] at hk
      cases hk
      have := h.largo
      have := h.cuenta
      simp
      omega

theorem acorde_activo (req : Peticion) {f : Filtro} {acc : List Condicion × Nat}
    (h : Acorde f acc) : Acorde (pasoActivo req f) (condActivo req acc) := by
  unfold pasoActivo condActivo agregarCond
  by_cases hn : noEsAdministrador req = true
  · simp only [hn, if_true]
    refine ⟨?_, h.cuenta, h.largo, ?_⟩
    · simp [sqlWhere_append, h.texto, Condicion.sql]
    · intro d hd k hk
      rcases List.mem_append.1 hd with hd | hd
      · exact h.indices d hd k hk
      · simp at hd
        subst hd
        simp [Condicion.indice] at hk
  · by_cases ha : req.query.activo.getD "true" = ""
    · simp [hn, ha, h]
    · simp only [hn, ha, ne_eq, not_false_eq_true, decide_True, if_true, if_false]
      have := acorde_agregar h Condicion.activoIgual
        (Valor.bool (req.query.activo.getD "true" == "true")) (fun _ => rfl)
      simpa [Condicion.sql, String.append_assoc] using this

theorem acorde_search (req : Peticion) {f : Filtro} {acc : List Condicion × Nat}
    (h : Acorde f acc) :
    Acorde (pasoSearch req f)
      (agregarCond (decide (req.query.search.getD "" ≠ "")) Condicion.busqueda acc) := by
  unfold pasoSearch agregarCond
  by_cases hs : req.query.search.getD "" = ""
  · simp [hs, h]
  · simp only [hs, ne_eq, not_false_eq_true, decide_True, if_true]
    have := acorde_agregar h Condicion.busqueda
      (Valor.texto ("%" ++ req.query.search.getD "" ++ "%")) (fun _ => rfl)
    simpa [Condicion.sql, String.append_assoc] using this

theorem acorde_tipo (req : Peticion) {f : Filtro} {acc : List Condicion × Nat}
    (h : Acorde f acc) :
    Acorde (pasoTipo req f)
      (agregarCond (decide (req.query.tipo.getD "" ≠ "")) Condicion.tipoIlike acc) := by
  unfold pasoTipo agregarCond
  by_cases hs : req.query.tipo.getD "" = ""
  · simp [hs, h]
  · simp only [hs, ne_eq, not_false_eq_true, decide_True, if_true]
    have := acorde_agregar h Condicion.tipoIlike
      (Valor.texto ("%" ++ req.query.tipo.getD "" ++ "%")) (fun _ => rfl)
    simpa [Condicion.sql, String.append_assoc] using this

theorem acorde_estilo (req : Peticion) {f : Filtro} {acc : List Condicion × Nat}
    (h : Acorde f acc) :
    Acorde (pasoEstilo req f)
      (agregarCond (decide (req.query.estilo.getD "" ≠ "")) Condicion.estiloIlike acc) := by
  unfold pasoEstilo agregarCond
  by_cases hs : req.query.estilo.getD "" = ""
  · simp [hs, h]
  · simp only [hs, ne_eq, not_false_eq_true, decide_True, if_true]
    have := acorde_agregar h Condicion.estiloIlike
      (Valor.texto ("%" ++ req.query.estilo.getD "" ++ "%")) (fun _ => rfl)
    simpa [Condicion.sql, String.append_assoc] using this

theorem acorde_precioMin (req : Peticion) {f : Filtro} {acc : List Condicion × Nat}
    (h : Acorde f acc) :
    Acorde (pasoPrecioMin req f)
      (agregarCond (decide (req.query.precio_min.getD "" ≠ "")) Condicion.precioMin acc) := by
  unfold pasoPrecioMin agregarCond
  by_cases hs : req.query.precio_min.getD "" = ""
  · simp [hs, h]
  · simp only [hs, ne_eq, not_false_eq_true, decide_True, if_true]
    have := acorde_agregar h Condicion.precioMin
      (Valor.flotante (req.query.precio_min.getD "")) (fun _ => rfl)
    simpa [Condicion.sql, String.append_assoc] using this

theorem acorde_precioMax (req : Peticion) {f : Filtro} {acc : List Condicion × Nat}
    (h : Acorde f acc) :
    Acorde (pasoPrecioMax req f)
      (agregarCond (decide (req.query.precio_max.getD "" ≠ "")) Condicion.precioMax acc) := by
  unfold pasoPrecioMax agregarCond
  by_cases hs : req.query.precio_max.getD "" = ""
  · simp [hs, h]
  · simp only [hs, ne_eq, not_false_eq_true, decide_True, if_true]
    have := acorde_agregar h Condicion.precioMax
      (Valor.flotante (req.query.precio_max.getD "")) (fun _ => rfl)
    simpa [Condicion.sql, String.append_assoc] using this

theorem acorde_materiales (req : Peticion) {f : Filtro} {acc : List Condicion × Nat}
    (h : Acorde f acc) :
    Acorde (pasoMateriales req f)
      (agregarCond (decide (req.query.materiales.getD "" ≠ "")) Condicion.materialesSolapa acc) := by
  unfold pasoMateriales agregarCond
  by_cases hs : req.query.materiales.getD "" = ""
  · simp [hs, h]
  · simp only [hs, ne_eq, not_false_eq_true, decide_True, if_true]
    have := acorde_agregar h Condicion.materialesSolapa
      (Valor.lista (splitTrim (req.query.materiales.getD ""))) (fun _ => rfl)
    simpa [Condicion.sql, String.append_assoc] using this

theorem acorde_colores (req : Peticion) {f : Filtro} {acc : List Condicion × Nat}
    (h : Acorde f acc) :
    Acorde (pasoColores req f)
      (agregarCond (decide (req.query.colores.getD "" ≠ "")) Condicion.coloresSolapa acc) := by
  unfold pasoColores agregarCond
  by_cases hs : req.query.colores.getD "" = ""
  · simp [hs, h]
  · simp only [hs, ne_eq, not_false_eq_true, decide_True, if_true]
    have := acorde_agregar h Condicion.coloresSolapa
      (Valor.lista (splitTrim (req.query.colores.getD ""))) (fun _ => rfl)
    simpa [Condicion.sql, String.append_assoc] using this

/-- The filter the handler builds agrees with the parsed conditions of the request. -/
theorem acorde_construir (req : Peticion) :
    Acorde (construirFiltro req) (condicionesAcc req) :=
  acorde_colores req (acorde_materiales req (acorde_precioMax req (acorde_precioMin req
    (acorde_estilo req (acorde_tipo req (acorde_search req
      (acorde_activo req acorde_inicial)))))))

/-- The WHERE clause the handler builds is the text of the parsed conditions. -/
theorem whereClause_eq_sql (req : Peticion) :
    (construirFiltro req).whereClause = sqlWhere (condiciones req) :=
  (acorde_construir req).texto

theorem valorDe_append (vs extra : List Valor) (k : Nat) (h0 : 0 < k) (hk : k < vs.length + 1) :
    valorDe (vs ++ extra) k = valorDe vs k := by
  unfold valorDe
  have : k ≠ 0 := by omega
  simp only [this, if_false]
  rw [List.get?_eq_getElem?, List.get?_eq_getElem?, List.getElem?_append_left (by omega)]

theorem cumple_append (m : Motor) (vs extra : List Valor) (p : Producto) (c : Condicion)
    (h : ∀ k, c.indice = some k → 0 < k ∧ k < vs.length + 1) :
    c.cumple m (vs ++ extra) p = c.cumple m vs p := by
  cases c <;> simp only [Condicion.cumple] <;>
    rw [valorDe_append _ _ _ (h _ rfl).1 (h _ rfl).2]

theorem all_congr_mem {α : Type} (l : List α) (f g : α → Bool) (h : ∀ a ∈ l, f a = g a) :
    l.all f = l.all g := by
  induction l with
  | nil => rfl
  | cons a l ih =>
    simp only [List.all_cons]
    rw [h a (List.mem_cons_self a l), ih (fun b hb => h b (List.mem_cons_of_mem a hb))]

/-- Values appended after the filter's own do not change which rows the conditions select. -/
theorem seleccionar_append (m : Motor) (req : Peticion) (extra : List Valor)
    (catalogo : List Producto) :
    seleccionar m (condiciones req) ((construirFiltro req).valores ++ extra) catalogo
      = seleccionar m (condiciones req) (construirFiltro req).valores catalogo := by
  unfold seleccionar
  congr 1
  funext p
  have hA := acorde_construir req
  apply all_congr_mem
  intro c hc
  apply cumple_append
  intro k hk
  have := hA.indices c hc k hk
  have h1 := hA.largo
  have h2 := hA.cuenta
  omega

/-! ## Visibility control -/

theorem noEsAdministrador_of (req : Peticion)
    (h : ∀ u, req.usuario = some u → u.rol ≠ "administrador") : noEsAdministrador req = true := by
  unfold noEsAdministrador
  cases hu : req.usuario with
  | none => rfl
  | some u => simpa using h u hu

theorem noEsAdministrador_admin (req : Peticion) (u : Usuario) (hu : req.usuario = some u)
    (h : u.rol = "administrador") : noEsAdministrador req = false := by
  simp [noEsAdministrador, hu, h]

theorem agregarCond_prefijo (b : Bool) (c : Nat → Condicion) (acc : List Condicion × Nat) :
    acc.1 <+: (agregarCond b c acc).1 := by
  unfold agregarCond
  split
  · exact List.prefix_append _ _
  · exact List.prefix_refl _

/-- The conditions of the optional filters come after those of the visibility control. -/
theorem condActivo_prefijo (req : Peticion) :
    (condActivo req ([], 1)).1 <+: condiciones req := by
  unfold condiciones condicionesAcc
  exact (agregarCond_prefijo _ _ _).trans <| (agregarCond_prefijo _ _ _).trans <|
    (agregarCond_prefijo _ _ _).trans <| (agregarCond_prefijo _ _ _).trans <|
    (agregarCond_prefijo _ _ _).trans <| (agregarCond_prefijo _ _ _).trans <|
    (agregarCond_prefijo _ _ _)

theorem mem_agregarCond {b : Bool} {k : Nat → Condicion} {acc : List Condicion × Nat}
    {base : List Condicion} (hk : ∀ n, (k n).esActivo = false)
    (h : ∀ c ∈ acc.1, c ∈ base ∨ c.esActivo = false) :
    ∀ c ∈ (agregarCond b k acc).1, c ∈ base ∨ c.esActivo = false := by
  intro c hc
  unfold agregarCond at hc
  split at hc
  · rcases List.mem_append.1 hc with hc | hc
    · exact h c hc
    · simp at hc
      exact Or.inr (hc ▸ hk _)
  · exact h c hc

/-- Only the visibility control contributes conditions on the `activo` column. -/
theorem condiciones_activo (req : Peticion) :
    ∀ c ∈ condiciones req, c ∈ (condActivo req ([], 1)).1 ∨ c.esActivo = false := by
  unfold condiciones condicionesAcc
  exact mem_agregarCond (fun _ => rfl) <| mem_agregarCond (fun _ => rfl) <|
    mem_agregarCond (fun _ => rfl) <| mem_agregarCond (fun _ => rfl) <|
    mem_agregarCond (fun _ => rfl) <| mem_agregarCond (fun _ => rfl) <|
    mem_agregarCond (fun _ => rfl) <| fun c hc => Or.inl hc

theorem pasoSearch_valores (req : Peticion) (f : Filtro) :
    f.valores <+: (pasoSearch req f).valores := by
  simp only [pasoSearch]; split
  · exact List.prefix_append _ _
  · exact List.prefix_refl _

theorem pasoTipo_valores (req : Peticion) (f : Filtro) :
    f.valores <+: (pasoTipo req f).valores := by
  simp only [pasoTipo]; split
  · exact List.prefix_append _ _
  · exact List.prefix_refl _

theorem pasoEstilo_valores (req : Peticion) (f : Filtro) :
    f.valores <+: (pasoEstilo req f).valores := by
  simp only [pasoEstilo]; split
  · exact List.prefix_append _ _
  · exact List.prefix_refl _

theorem pasoPrecioMin_valores (req : Peticion) (f : Filtro) :
    f.valores <+: (pasoPrecioMin req f).valores := by
  simp only [pasoPrecioMin]; split
  · exact List.prefix_append _ _
  · exact List.prefix_refl _

theorem pasoPrecioMax_valores (req : Peticion) (f : Filtro) :
    f.valores <+: (pasoPrecioMax req f).valores := by
  simp only [pasoPrecioMax]; split
  · exact List.prefix_append _ _
  · exact List.prefix_refl _

theorem pasoMateriales_valores (req : Peticion) (f : Filtro) :
    f.valores <+: (pasoMateriales req f).valores := by
  simp only [pasoMateriales]; split
  · exact List.prefix_append _ _
  · exact List.prefix_refl _

theorem pasoColores_valores (req : Peticion) (f : Filtro) :
    f.valores <+: (pasoColores req f).valores := by
  simp only [pasoColores]; split
  · exact List.prefix_append _ _
  · exact List.prefix_refl _

/-- The values bound after the search step extend those bound up to it. -/
theorem valores_desde_search (req : Peticion) :
    (pasoSearch req (pasoActivo req filtroInicial)).valores <+: (construirFiltro req).valores := by
  unfold construirFiltro
  exact (pasoTipo_valores _ _).trans <| (pasoEstilo_valores _ _).trans <|
    (pasoPrecioMin_valores _ _).trans <| (pasoPrecioMax_valores _ _).trans <|
    (pasoMateriales_valores _ _).trans <| (pasoColores_valores _ _)

/-- The values bound by the optional filters come after those of the visibility control. -/
theorem valores_desde_activo (req : Peticion) :
    (pasoActivo req filtroInicial).valores <+: (construirFiltro req).valores :=
  (pasoSearch_valores _ _).trans (valores_desde_search req)

theorem valorDe_prefijo {vs ws : List Valor} (h : vs <+: ws) (k : Nat) (h0 : 0 < k)
    (hk : k < vs.length + 1) : valorDe ws k = valorDe vs k := by
  obtain ⟨t, rfl⟩ := h
  exact valorDe_append vs t k h0 hk

theorem cumple_sin_activo (m : Motor) (vs : List Valor) (p : Producto) (b : Bool)
    (c : Condicion) (h : c.esActivo = false) :
    c.cumple m vs { p with activo := b } = c.cumple m vs p := by
  cases c <;> simp_all [Condicion.cumple, Condicion.esActivo]

/-- When the visibility control adds no condition, the filter does not look at the flag. -/
theorem cumpleFiltro_activo_indiferente (m : Motor) (req : Peticion)
    (h : (condActivo req ([], 1)).1 = []) (p : Producto) (b : Bool) :
    cumpleFiltro m req { p with activo := b } = cumpleFiltro m req p := by
  unfold cumpleFiltro
  apply all_congr_mem
  intro c hc
  rcases condiciones_activo req c hc with hc | hc
  · rw [h] at hc; cases hc
  · exact cumple_sin_activo m _ p b c hc

/-- A listing answers only under a database, and the rows it returns are rows of the table that
satisfy the filter. -/
theorem listar_productos (query : Option Motor) (catalogo : List Producto) (req : Peticion)
    (r : RespuestaCatalogo) (h : listarCatalogo query catalogo req = .ok r) :
    ∃ m, query = some m ∧ ∀ p ∈ r.productos, p ∈ catalogo ∧ cumpleFiltro m req p = true := by
  cases query with
  | none => simp [listarCatalogo] at h
  | some m =>
    refine ⟨m, rfl, ?_⟩
    intro p hp
    unfold listarCatalogo at h
    simp only at h
    split at h
    · split at h
      · cases h
      · injection h with h
        subst h
        simp only at hp
        have h1 := List.mem_of_mem_drop (List.mem_of_mem_take hp)
        unfold ordenar at h1
        rw [List.mem_insertionSort] at h1
        unfold valoresPagina at h1
        rw [seleccionar_append] at h1
        unfold seleccionar at h1
        rw [List.mem_filter] at h1
        exact h1
    · cases h

theorem pasoSearch_sinBool (req : Peticion) {f : Filtro} (h : ∀ b, Valor.bool b ∉ f.valores) :
    ∀ b, Valor.bool b ∉ (pasoSearch req f).valores := by
  intro b
  simp only [pasoSearch]
  split <;> simp [h b]

theorem pasoTipo_sinBool (req : Peticion) {f : Filtro} (h : ∀ b, Valor.bool b ∉ f.valores) :
    ∀ b, Valor.bool b ∉ (pasoTipo req f).valores := by
  intro b
  simp only [pasoTipo]
  split <;> simp [h b]

theorem pasoEstilo_sinBool (req : Peticion) {f : Filtro} (h : ∀ b, Valor.bool b ∉ f.valores) :
    ∀ b, Valor.bool b ∉ (pasoEstilo req f).valores := by
  intro b
  simp only [pasoEstilo]
  split <;> simp [h b]

theorem pasoPrecioMin_sinBool (req : Peticion) {f : Filtro} (h : ∀ b, Valor.bool b ∉ f.valores) :
    ∀ b, Valor.bool b ∉ (pasoPrecioMin req f).valores := by
  intro b
  simp only [pasoPrecioMin]
  split <;> simp [h b]

theorem pasoPrecioMax_sinBool (req : Peticion) {f : Filtro} (h : ∀ b, Valor.bool b ∉ f.valores) :
    ∀ b, Valor.bool b ∉ (pasoPrecioMax req f).valores := by
  intro b
  simp only [pasoPrecioMax]
  split <;> simp [h b]

theorem pasoMateriales_sinBool (req : Peticion) {f : Filtro} (h : ∀ b, Valor.bool b ∉ f.valores) :
    ∀ b, Valor.bool b ∉ (pasoMateriales req f).valores := by
  intro b
  simp only [pasoMateriales]
  split <;> simp [h b]

theorem pasoColores_sinBool (req : Peticion) {f : Filtro} (h : ∀ b, Valor.bool b ∉ f.valores) :
    ∀ b, Valor.bool b ∉ (pasoColores req f).valores := by
  intro b
  simp only [pasoColores]
  split <;> simp [h b]

theorem foldl_sql (cs : List Condicion) (s : String) :
    cs.foldl (fun s c => s ++ c.sql) s = s ++ cs.foldl (fun s c => s ++ c.sql) "" := by
  induction cs generalizing s with
  | nil => simp
  | cons c cs ih =>
    simp only [List.foldl_cons]
    rw [ih, ih ("" ++ c.sql)]
    simp [String.append_assoc]

/-- C1: for a caller who is not an administrator and any value of the `activo` parameter, the
WHERE clause contains the literal conjunct ` AND activo = true`, the filter is the one built
without looking at the parameter, no boolean value is bound, and every product of a listing is
active. -/
theorem no_admin_fuerza_activo (req : Peticion)
    (hno : ∀ u, req.usuario = some u → u.rol ≠ "administrador") (a : Option String) :
    " AND activo = true".data <:+: (construirFiltro (conActivo req a)).whereClause.data
    ∧ construirFiltro (conActivo req a) = construirFiltro req
    ∧ (∀ b, Valor.bool b ∉ (construirFiltro (conActivo req a)).valores)
    ∧ ∀ (query : Option Motor) (catalogo : List Producto) (r : RespuestaCatalogo),
        listarCatalogo query catalogo (conActivo req a) = .ok r →
          ∀ p ∈ r.productos, p.activo = true := by
  have hn : noEsAdministrador req = true := noEsAdministrador_of req hno
  have hn' : noEsAdministrador (conActivo req a) = true := hn
  have hcond : (condActivo (conActivo req a) ([], 1)).1 = [Condicion.activoTrue] := by
    simp [condActivo, hn']
  have hpre := condActivo_prefijo (conActivo req a)
  rw [hcond] at hpre
  refine ⟨?_, ?_, ?_, ?_⟩
  · obtain ⟨t, ht⟩ := hpre
    rw [whereClause_eq_sql, ← ht]
    simp only [sqlWhere, List.singleton_append, List.foldl_cons]
    rw [foldl_sql]
    refine ⟨"WHERE 1=1".data, (t.foldl (fun s c => s ++ c.sql) "").data, ?_⟩
    rw [String.data_append, String.data_append]
    rfl
  · have hA : pasoActivo (conActivo req a) filtroInicial = pasoActivo req filtroInicial := by
      simp only [pasoActivo, hn, hn', if_true]
    show pasoColores req (pasoMateriales req (pasoPrecioMax req (pasoPrecioMin req
      (pasoEstilo req (pasoTipo req (pasoSearch req
        (pasoActivo (conActivo req a) filtroInicial))))))) = construirFiltro req
    rw [hA]
    rfl
  · have h0 : ∀ b, Valor.bool b ∉ (pasoActivo (conActivo req a) filtroInicial).valores := by
      intro b
      simp [pasoActivo, hn', filtroInicial]
    exact pasoColores_sinBool _ <| pasoMateriales_sinBool _ <| pasoPrecioMax_sinBool _ <|
      pasoPrecioMin_sinBool _ <| pasoEstilo_sinBool _ <| pasoTipo_sinBool _ <|
      pasoSearch_sinBool _ h0
  · intro query catalogo r hr p hp
    obtain ⟨m, -, hm⟩ := listar_productos query catalogo _ r hr
    have h1 := (hm p hp).2
    unfold cumpleFiltro at h1
    rw [List.all_eq_true] at h1
    have := h1 Condicion.activoTrue (hpre.subset (List.mem_singleton_self _))
    simpa [Condicion.cumple] using this

/-- C1 at an anonymous request that asks for `activo=false`. -/
theorem no_admin_fuerza_activo_testigo :
    (∀ u, ({} : Peticion).usuario = some u → u.rol ≠ "administrador")
    ∧ construirFiltro (conActivo {} (some "false")) = construirFiltro {} :=
  ⟨fun _ h => (nomatch h),
   (no_admin_fuerza_activo {} (fun _ h => (nomatch h)) (some "false")).2.1⟩

/-- For an administrator who asks for an active state, every row the filter selects has the
flag equal to the bound boolean `activo === 'true'`. -/
theorem cumpleFiltro_activoIgual (m : Motor) (req : Peticion)
    (h : noEsAdministrador req = false ∧ req.query.activo.getD "true" ≠ "") (p : Producto)
    (hp : cumpleFiltro m req p = true) :
    p.activo = (req.query.activo.getD "true" == "true") := by
  have hcond : (condActivo req ([], 1)).1 = [Condicion.activoIgual 1] := by
    simp [condActivo, agregarCond, h.1, h.2]
  have hval : (pasoActivo req filtroInicial).valores
      = [Valor.bool (req.query.activo.getD "true" == "true")] := by
    simp [pasoActivo, h.1, h.2, filtroInicial]
  have hpre := condActivo_prefijo req
  rw [hcond] at hpre
  unfold cumpleFiltro at hp
  rw [List.all_eq_true] at hp
  have h1 := hp (Condicion.activoIgual 1) (hpre.subset (List.mem_singleton_self _))
  simp only [Condicion.cumple] at h1
  rw [valorDe_prefijo (valores_desde_activo req) 1 (by omega) (by rw [hval]; simp), hval] at h1
  simpa [valorDe] using h1

/-- C2, refuted as stated: an administrator's request with no `activo` parameter builds the
filter `activo = $1` bound to `true`, which a deactivated product does not satisfy, and its
listing of a catalogue holding only that product is empty. -/
theorem admin_sin_activo_restringe :
    construirFiltro { usuario := some administrador }
        = { whereClause := "WHERE 1=1 AND activo = $1", valores := [Valor.bool true],
            contador := 2 }
    ∧ cumpleFiltro motorNeutro { usuario := some administrador } sillaInactiva = false
    ∧ (listarCatalogo (some motorNeutro) [sillaInactiva]
        { usuario := some administrador }).toOption.map
        (fun r => r.productos) = some [] := by
  refine ⟨by decide, by decide, by decide⟩

/-- C2, amended: an administrator who supplies no `activo` parameter gets the default `'true'`,
so the filter is the one of `activo=true` and a listing holds only active products; with
`activo=''` the filter does not look at the flag, so a deactivated product is selected exactly
when its active twin is; with `activo='false'` only deactivated products are selected. -/
theorem admin_visibilidad (req : Peticion) (u : Usuario) (hu : req.usuario = some u)
    (hadm : u.rol = "administrador") :
    (req.query.activo = none →
      construirFiltro req = construirFiltro (conActivo req (some "true"))
      ∧ ∀ (query : Option Motor) (catalogo : List Producto) (r : RespuestaCatalogo),
          listarCatalogo query catalogo req = .ok r → ∀ p ∈ r.productos, p.activo = true)
    ∧ (req.query.activo = some "" →
      ∀ (m : Motor) (p : Producto) (b : Bool),
        cumpleFiltro m req { p with activo := b } = cumpleFiltro m req p)
    ∧ (req.query.activo = some "false" →
      ∀ (m : Motor) (p : Producto), cumpleFiltro m req p = true → p.activo = false) := by
  have hn : noEsAdministrador req = false := noEsAdministrador_admin req u hu hadm
  refine ⟨?_, ?_, ?_⟩
  · intro ha
    have hA : pasoActivo (conActivo req (some "true")) filtroInicial
        = pasoActivo req filtroInicial := by
      have hn' : noEsAdministrador (conActivo req (some "true")) = false := hn
      have hq : (conActivo req (some "true")).query.activo = some "true" := rfl
      simp only [pasoActivo, hn, hn', hq, ha]
      simp
    refine ⟨?_, ?_⟩
    · show construirFiltro req = pasoColores req (pasoMateriales req (pasoPrecioMax req
        (pasoPrecioMin req (pasoEstilo req (pasoTipo req (pasoSearch req
          (pasoActivo (conActivo req (some "true")) filtroInicial)))))))
      rw [hA]
      rfl
    · intro query catalogo r hr p hp
      obtain ⟨m, -, hm⟩ := listar_productos query catalogo req r hr
      have h1 := (hm p hp).2
      exact (cumpleFiltro_activoIgual m req (by simp [hn, ha]) p h1).trans (by simp [ha])
  · intro ha m p b
    apply cumpleFiltro_activo_indiferente
    simp [condActivo, agregarCond, hn, ha]
  · intro ha m p h1
    exact (cumpleFiltro_activoIgual m req (by simp [hn, ha]) p h1).trans (by simp [ha])

/-- C2 amended, at an administrator's request with no query parameter. -/
theorem admin_visibilidad_testigo :
    ({ usuario := some administrador } : Peticion).usuario = some administrador
    ∧ administrador.rol = "administrador"
    ∧ construirFiltro { usuario := some administrador }
        = construirFiltro (conActivo { usuario := some administrador } (some "true")) :=
  ⟨rfl, rfl, ((admin_visibilidad { usuario := some administrador } administrador rfl rfl).1
    rfl).1⟩

theorem sqlWhere_prefijo {cs ds : List Condicion} (h : cs <+: ds) :
    (sqlWhere cs).data <+: (sqlWhere ds).data := by
  obtain ⟨t, rfl⟩ := h
  refine ⟨(t.foldl (fun s c => s ++ c.sql) "").data, ?_⟩
  unfold sqlWhere
  rw [List.foldl_append, foldl_sql t (List.foldl (fun s c => s ++ c.sql) "WHERE 1=1" cs),
    String.data_append]

/-- What the visibility control does for an administrator who asks for an active state. -/
theorem admin_activo_pedido (req : Peticion) (hn : noEsAdministrador req = false)
    (s : String) (ha : req.query.activo = some s) (hs : s ≠ "") (f : Filtro) :
    pasoActivo req f
        = { whereClause := f.whereClause ++ " AND activo = $" ++ toString f.contador
            valores := f.valores ++ [Valor.bool (s == "true")]
            contador := f.contador + 1 }
    ∧ (condiciones req).head? = some (Condicion.activoIgual 1)
    ∧ "WHERE 1=1 AND activo = $1".data <+: (construirFiltro req).whereClause.data
    ∧ valorDe (construirFiltro req).valores 1 = some (Valor.bool (s == "true")) := by
  have hcond : (condActivo req ([], 1)).1 = [Condicion.activoIgual 1] := by
    simp [condActivo, agregarCond, hn, ha, hs]
  have hval : (pasoActivo req filtroInicial).valores = [Valor.bool (s == "true")] := by
    simp [pasoActivo, hn, ha, hs, filtroInicial]
  have hpre := condActivo_prefijo req
  rw [hcond] at hpre
  refine ⟨?_, ?_, ?_, ?_⟩
  · simp [pasoActivo, hn, ha, hs]
  · obtain ⟨t, ht⟩ := hpre
    rw [← ht]
    rfl
  · rw [whereClause_eq_sql]
    exact sqlWhere_prefijo hpre
  · rw [valorDe_prefijo (valores_desde_activo req) 1 (by omega) (by rw [hval]; simp), hval]
    rfl

/-- C3: for an administrator, `activo='true'` makes the visibility control append the conjunct
`activo = $k` (with `k` the running counter, 1 in the finished clause) bound to `true`,
`activo='false'` the same conjunct bound to `false`, and `activo=''` leaves the filter as it
was: no condition on the flag is among the conditions of the request, and the filter selects a
row whatever its flag. -/
theorem admin_filtro_explicito (req : Peticion) (u : Usuario) (hu : req.usuario = some u)
    (hadm : u.rol = "administrador") (f : Filtro) :
    (req.query.activo = some "true" →
      pasoActivo req f
          = { whereClause := f.whereClause ++ " AND activo = $" ++ toString f.contador
              valores := f.valores ++ [Valor.bool true]
              contador := f.contador + 1 }
      ∧ (condiciones req).head? = some (Condicion.activoIgual 1)
      ∧ "WHERE 1=1 AND activo = $1".data <+: (construirFiltro req).whereClause.data
      ∧ valorDe (construirFiltro req).valores 1 = some (Valor.bool true))
    ∧ (req.query.activo = some "false" →
      pasoActivo req f
          = { whereClause := f.whereClause ++ " AND activo = $" ++ toString f.contador
              valores := f.valores ++ [Valor.bool false]
              contador := f.contador + 1 }
      ∧ (condiciones req).head? = some (Condicion.activoIgual 1)
      ∧ "WHERE 1=1 AND activo = $1".data <+: (construirFiltro req).whereClause.data
      ∧ valorDe (construirFiltro req).valores 1 = some (Valor.bool false))
    ∧ (req.query.activo = some "" →
      pasoActivo req f = f
      ∧ (∀ c ∈ condiciones req, c.esActivo = false)
      ∧ ∀ (m : Motor) (p : Producto),
          cumpleFiltro m req { p with activo := false }
            = cumpleFiltro m req { p with activo := true }) := by
  have hn : noEsAdministrador req = false := noEsAdministrador_admin req u hu hadm
  refine ⟨?_, ?_, ?_⟩
  · intro ha
    exact admin_activo_pedido req hn "true" ha (by decide) f
  · intro ha
    exact admin_activo_pedido req hn "false" ha (by decide) f
  · intro ha
    have hcond : (condActivo req ([], 1)).1 = [] := by
      simp [condActivo, agregarCond, hn, ha]
    refine ⟨by simp [pasoActivo, hn, ha], ?_, ?_⟩
    · intro c hc
      rcases condiciones_activo req c hc with h | h
      · rw [hcond] at h; cases h
      · exact h
    · intro m p
      rw [cumpleFiltro_activo_indiferente m req hcond p false,
        cumpleFiltro_activo_indiferente m req hcond p true]

/-- C3 at an administrator's request for `activo=false` with a text search. -/
theorem admin_filtro_explicito_testigo :
    peticionAdminInactivos.usuario = some administrador
    ∧ administrador.rol = "administrador"
    ∧ valorDe (construirFiltro peticionAdminInactivos).valores 1 = some (Valor.bool false) :=
  ⟨rfl, rfl, ((admin_filtro_explicito peticionAdminInactivos administrador rfl rfl
      filtroInicial).2.1 rfl).2.2.2⟩

/-! ## Pagination -/

theorem valorDe_limite (vs : List Valor) (a b : Valor) :
    valorDe (vs ++ [a, b]) (vs.length + 1) = some a
    ∧ valorDe (vs ++ [a, b]) (vs.length + 1 + 1) = some b := by
  unfold valorDe
  constructor
  · rw [if_neg (by omega), List.get?_eq_getElem?, List.getElem?_append_right (by omega)]
    simp
  · rw [if_neg (by omega), List.get?_eq_getElem?, List.getElem?_append_right (by omega)]
    simp

/-- An integer from 0 to below `2^53` is a double. -/
theorem dobleDe_exacto (z : Int) (h0 : 0 ≤ z) (h : z < 2 ^ 53) : dobleDe z = some z := by
  obtain ⟨n, rfl⟩ := Int.eq_ofNat_of_zero_le h0
  have hn : n < 2 ^ 53 := by exact_mod_cast h
  show dobleDe (Int.ofNat n) = _
  simp only [dobleDe, dobleDeNat, if_pos hn]
  rfl

/-- The offset of line 73 is the exact product when the product is below `2^53`. -/
theorem offsetDe_exacto (q : Consulta) (p l : Int) (hp : paginaDe q = some p)
    (hl : limiteDe q = some l) (h1 : 1 ≤ p) (h2 : 1 ≤ l) (h3 : (p - 1) * l < 2 ^ 53) :
    offsetDe q = some ((p - 1) * l) := by
  have hp0 : 0 ≤ p - 1 := by omega
  have hprod : 0 ≤ (p - 1) * l := mul_nonneg hp0 (by omega)
  have hp1 : p - 1 < 2 ^ 53 := by
    have : (p - 1) * 1 ≤ (p - 1) * l := mul_le_mul_of_nonneg_left h2 hp0
    omega
  simp only [offsetDe, hp, hl, dobleDe_exacto (p - 1) hp0 hp1, dobleDe_exacto _ hprod h3]

/-- With a database call in scope, the handler answers when the LIMIT and OFFSET it binds are
integers from 0 to below `2^63`, with the window of the ordered selection that they delimit. -/
theorem listar_con_query (m : Motor) (catalogo : List Producto) (req : Peticion) (l o : Int)
    (hl : limiteDe req.query = some l) (ho : offsetDe req.query = some o)
    (h1 : 0 ≤ l) (h2 : 0 ≤ o) (h3 : l < 2 ^ 63) (h4 : o < 2 ^ 63) :
    listarCatalogo (some m) catalogo req = .ok
      { message := "Catálogo obtenido exitosamente"
        productos := ((ordenar (seleccionar m (condiciones req) (valoresPagina req)
          catalogo)).drop o.toNat).take l.toNat
        pagination :=
          { page := paginaDe req.query
            limit := some l
            total := totalDe (seleccionar m (condiciones req) (construirFiltro req).valores
              catalogo).length
            pages := paginasDe (totalDe (seleccionar m (condiciones req)
              (construirFiltro req).valores catalogo).length) l } } := by
  have hA := (acorde_construir req).largo
  have hv := valorDe_limite (construirFiltro req).valores (Valor.entero (some l))
    (Valor.entero (some o))
  rw [hA] at hv
  unfold listarCatalogo
  simp only
  have hvp : valoresPagina req
      = (construirFiltro req).valores ++ [Valor.entero (some l), Valor.entero (some o)] := by
    simp [valoresPagina, hl, ho]
  rw [hvp, hv.1, hv.2]
  simp only
  rw [if_neg (by omega), hl]

/-- Every answer of the handler comes from a database call in scope and holds the window of
the ordered selection that the bound LIMIT and OFFSET delimit, these being the limit and the
offset of the request. -/
theorem listar_ventana (query : Option Motor) (catalogo : List Producto) (req : Peticion)
    (r : RespuestaCatalogo) (h : listarCatalogo query catalogo req = .ok r) :
    ∃ (m : Motor) (l o : Int), query = some m ∧ limiteDe req.query = some l
      ∧ offsetDe req.query = some o ∧ 0 ≤ l ∧ 0 ≤ o ∧ l < 2 ^ 63 ∧ o < 2 ^ 63
      ∧ r = { message := "Catálogo obtenido exitosamente"
              productos := ((ordenar (seleccionar m (condiciones req)
                (construirFiltro req).valores catalogo)).drop o.toNat).take l.toNat
              pagination :=
                { page := paginaDe req.query
                  limit := some l
                  total := totalDe (seleccionar m (condiciones req) (construirFiltro req).valores
                    catalogo).length
                  pages := paginasDe (totalDe (seleccionar m (condiciones req)
                    (construirFiltro req).valores catalogo).length) l } } := by
  cases query with
  | none => cases h
  | some m =>
    cases hl : limiteDe req.query with
    | none =>
      have hA := (acorde_construir req).largo
      have hv := valorDe_limite (construirFiltro req).valores (Valor.entero none)
        (Valor.entero (offsetDe req.query))
      rw [hA] at hv
      unfold listarCatalogo at h
      simp only [valoresPagina, hl, hv.1] at h
      cases h
    | some l =>
      cases ho : offsetDe req.query with
      | none =>
        have hA := (acorde_construir req).largo
        have hv := valorDe_limite (construirFiltro req).valores (Valor.entero (some l))
          (Valor.entero none)
        rw [hA] at hv
        unfold listarCatalogo at h
        simp only [valoresPagina, hl, ho, hv.1, hv.2] at h
        cases h
      | some o =>
        by_cases hb : l < 0 ∨ o < 0 ∨ 2 ^ 63 ≤ l ∨ 2 ^ 63 ≤ o
        · have hA := (acorde_construir req).largo
          have hv := valorDe_limite (construirFiltro req).valores (Valor.entero (some l))
            (Valor.entero (some o))
          rw [hA] at hv
          unfold listarCatalogo at h
          simp only [valoresPagina, hl, ho, hv.1, hv.2, if_pos hb] at h
          cases h
        · have h1 : 0 ≤ l := by omega
          have h2 : 0 ≤ o := by omega
          have h3 : l < 2 ^ 63 := by omega
          have h4 : o < 2 ^ 63 := by omega
          rw [listar_con_query m catalogo req l o hl ho h1 h2 h3 h4] at h
          injection h with h
          refine ⟨m, l, o, rfl, rfl, rfl, h1, h2, h3, h4, ?_⟩
          rw [← h, valoresPagina, seleccionar_append]

/-- C4, counterexample: for `page=94906268` and `limit=94906267`, both at least 1, the offset
that line 73 computes and line 148 pushes is the double 9007199515875288, which is not
`(page - 1) * limit = 9007199515875289`. -/
theorem paginacion_offset_redondeado :
    paginaDe peticionPaginaLejana.query = some 94906268
    ∧ limiteDe peticionPaginaLejana.query = some 94906267
    ∧ offsetDe peticionPaginaLejana.query = some 9007199515875288
    ∧ valoresPagina peticionPaginaLejana
        = [Valor.entero (some 94906267), Valor.entero (some 9007199515875288)]
    ∧ ((94906268 : Int) - 1) * 94906267 = 9007199515875289 := by
  decide

/-- C4, amended: `page` and `limit` are what `parseInt` makes of the parameters, 1 and 12 when
these are absent; when they are integers `p ≥ 1` and `l ≥ 1` whose product `(p - 1) * l` is
below `2^53`, the offset of line 73 is that product, the values that line 148 pushes last for
the page query are `l` and `(p - 1) * l`, and they stand at the placeholders of its LIMIT and
OFFSET; every answer of the handler holds the rows of the ordered selection from position
`(p - 1) * l`, at most `l` of them; the request for page `p + 1`, with `p * l` below `2^53`,
starts `l` rows further, where page `p` ends; and with both parameters absent the offset
is 0. -/
theorem paginacion_offset (req : Peticion) (p l : Int)
    (hp : paginaDe req.query = some p) (hl : limiteDe req.query = some l)
    (h1 : 1 ≤ p) (h2 : 1 ≤ l) (h3 : (p - 1) * l < 2 ^ 53) :
    offsetDe req.query = some ((p - 1) * l)
    ∧ valoresPagina req
        = (construirFiltro req).valores
            ++ [Valor.entero (some l), Valor.entero (some ((p - 1) * l))]
    ∧ valorDe (valoresPagina req) (construirFiltro req).contador = some (Valor.entero (some l))
    ∧ valorDe (valoresPagina req) ((construirFiltro req).contador + 1)
        = some (Valor.entero (some ((p - 1) * l)))
    ∧ clausulaLimite (construirFiltro req)
        = "LIMIT $" ++ toString (construirFiltro req).contador
            ++ " OFFSET $" ++ toString ((construirFiltro req).contador + 1)
    ∧ (∀ (query : Option Motor) (catalogo : List Producto) (r : RespuestaCatalogo),
        listarCatalogo query catalogo req = .ok r →
          ∃ m, query = some m
            ∧ r.productos = ((ordenar (seleccionar m (condiciones req)
                (construirFiltro req).valores catalogo)).drop ((p - 1) * l).toNat).take l.toNat
            ∧ r.pagination.page = some p ∧ r.pagination.limit = some l)
    ∧ (∀ q : Consulta, paginaDe q = some (p + 1) → limiteDe q = some l → p * l < 2 ^ 53 →
        offsetDe q = some ((p - 1) * l + l))
    ∧ (∀ (q : Consulta) (s : String), q.page = some s → paginaDe q = parseInt s)
    ∧ (∀ (q : Consulta) (s : String), q.limit = some s → limiteDe q = parseInt s)
    ∧ (∀ q : Consulta, q.page = none → paginaDe q = some 1)
    ∧ (∀ q : Consulta, q.limit = none → limiteDe q = some 12)
    ∧ (∀ q : Consulta, q.page = none → q.limit = none → offsetDe q = some 0) := by
  have ho : offsetDe req.query = some ((p - 1) * l) := offsetDe_exacto req.query p l hp hl h1 h2 h3
  have hvp : valoresPagina req
      = (construirFiltro req).valores
          ++ [Valor.entero (some l), Valor.entero (some ((p - 1) * l))] := by
    simp [valoresPagina, hl, ho]
  have hA := (acorde_construir req).largo
  have hv := valorDe_limite (construirFiltro req).valores (Valor.entero (some l))
    (Valor.entero (some ((p - 1) * l)))
  rw [hA] at hv
  refine ⟨ho, hvp, ?_, ?_, rfl, ?_, ?_, ?_, ?_, ?_, ?_, ?_⟩
  · rw [hvp]; exact hv.1
  · rw [hvp]; exact hv.2
  · intro query catalogo r hr
    obtain ⟨m, l2, o2, hq, hl2, ho2, -, -, -, -, hr2⟩ := listar_ventana query catalogo req r hr
    rw [hl] at hl2
    rw [ho] at ho2
    injection hl2 with hl2
    injection ho2 with ho2
    subst hl2 ho2
    refine ⟨m, hq, ?_, ?_, ?_⟩
    · rw [hr2]
    · rw [hr2]; exact hp
    · rw [hr2]
  · intro q hq1 hq2 hq3
    have h := offsetDe_exacto q (p + 1) l hq1 hq2 (by omega) h2
      (by rw [add_sub_cancel_right]; exact hq3)
    rw [h]
    congr 1
    ring
  · intro q s hs
    simp only [paginaDe, hs]
  · intro q s hs
    simp only [limiteDe, hs]
  · intro q hq
    simp only [paginaDe, hq]
  · intro q hq
    simp only [limiteDe, hq]
  · intro q hq1 hq2
    have ha : paginaDe q = some 1 := by simp only [paginaDe, hq1]
    have hb : limiteDe q = some 12 := by simp only [limiteDe, hq2]
    have h := offsetDe_exacto q 1 12 ha hb (by decide) (by decide) (by decide)
    rw [h]
    rfl

/-- C4 at `page=3`, `limit=5`: the limit bound is 5 and the offset 10. -/
theorem paginacion_offset_testigo :
    paginaDe peticionPaginaTres.query = some 3
    ∧ limiteDe peticionPaginaTres.query = some 5
    ∧ (3 - 1) * 5 < (2 : Int) ^ 53
    ∧ offsetDe peticionPaginaTres.query = some 10
    ∧ valoresPagina peticionPaginaTres
        = (construirFiltro peticionPaginaTres).valores
            ++ [Valor.entero (some 5), Valor.entero (some ((3 - 1) * 5))] :=
  ⟨by decide, by decide, by decide,
   (paginacion_offset peticionPaginaTres 3 5 (by decide) (by decide) (by decide) (by decide)
      (by decide)).1,
   (paginacion_offset peticionPaginaTres 3 5 (by decide) (by decide) (by decide) (by decide)
      (by decide)).2.1⟩

theorem cocienteRedondeado_cotas (num den : Nat) :
    num / den ≤ cocienteRedondeado num den ∧ cocienteRedondeado num den ≤ num / den + 1 := by
  unfold cocienteRedondeado
  simp only
  split
  · omega
  · split
    · omega
    · split <;> omega

theorem cocienteRedondeado_exacto (num den : Nat) (hd : 0 < den) (h : num % den = 0) :
    cocienteRedondeado num den = num / den := by
  unfold cocienteRedondeado
  simp only
  rw [if_pos (by omega)]

theorem cocienteRedondeado_arriba (num den : Nat) (h : den < 2 * (num % den)) :
    cocienteRedondeado num den = num / den + 1 := by
  unfold cocienteRedondeado
  simp only
  rw [if_neg (by omega), if_pos h]

/-- The search for the scale stops at a scale that gives the quotient 53 bits, when the last
scale it may try does. -/
theorem escalaDe_alcanza (pasos a b : Nat) :
    ∀ s, 2 ^ 52 ≤ a * 2 ^ (s + pasos) / b → 2 ^ 52 ≤ a * 2 ^ escalaDe pasos a b s / b := by
  induction pasos with
  | zero => intro s h; exact h
  | succ n ih =>
    intro s h
    unfold escalaDe
    split
    · assumption
    · apply ih
      rw [show s + 1 + n = s + (n + 1) by omega]
      exact h

/-- Rounding a quotient of a numerator below `2^53` to 53 bits does not move it across an
integer: the ceiling of the rounded quotient is the ceiling of the exact one. -/
theorem techo_redondeado (a b s : Nat) (hb : 0 < b) (ha : a < 2 ^ 53)
    (hs : 2 ^ 52 ≤ a * 2 ^ s / b) :
    (cocienteRedondeado (a * 2 ^ s) b + 2 ^ s - 1) / 2 ^ s = (a + b - 1) / b := by
  have hT : 0 < 2 ^ s := Nat.two_pow_pos s
  generalize hTT : 2 ^ s = T at *
  have hs2 : 2 ^ 52 * b ≤ a * T := (Nat.le_div_iff_mul_le hb).1 hs
  have hbT : b < 2 * T := by
    have h1 : a * T < 2 ^ 53 * T := Nat.mul_lt_mul_of_pos_right ha hT
    have h2 : 2 ^ 52 * b < 2 ^ 52 * (2 * T) := by
      calc 2 ^ 52 * b ≤ a * T := hs2
        _ < 2 ^ 53 * T := h1
        _ = 2 ^ 52 * (2 * T) := by ring
    exact Nat.lt_of_mul_lt_mul_left h2
  have hdm := Nat.div_add_mod a b
  generalize hq : a / b = q at *
  generalize hr : a % b = r at *
  have hrb : r < b := by rw [← hr]; exact Nat.mod_lt a hb
  have hcot := cocienteRedondeado_cotas (a * T) b
  by_cases hr0 : r = 0
  · have haq : a = b * q := by omega
    have hN : a * T = b * (q * T) := by rw [haq]; ring
    have hmod : a * T % b = 0 := by rw [hN]; exact Nat.mul_mod_right b _
    have hdiv : a * T / b = q * T := by rw [hN]; exact Nat.mul_div_cancel_left _ hb
    rw [cocienteRedondeado_exacto _ _ hb hmod, hdiv]
    have hR : (a + b - 1) / b = q := by
      apply Nat.div_eq_of_lt_le
      · rw [haq]; 
        have : q * b = b * q := Nat.mul_comm _ _
        omega
      · rw [haq, Nat.succ_mul]
        have : q * b = b * q := Nat.mul_comm _ _
        omega
    rw [hR]
    apply Nat.div_eq_of_lt_le
    · omega
    · rw [Nat.succ_mul]; omega
  · have e1 : (q + 1) * b = b * q + b := by ring
    have e2 : (q + 1 + 1) * b = b * q + b + b := by ring
    have hR : (a + b - 1) / b = q + 1 :=
      Nat.div_eq_of_lt_le (by rw [e1]; omega) (by show _ < (q + 1 + 1) * b; rw [e2]; omega)
    rw [hR]
    have hN : a * T = b * (q * T) + r * T := by rw [← hdm]; ring
    have hdiv : a * T / b = q * T + r * T / b := by
      rw [hN, Nat.mul_add_div hb]
    have hmod : a * T % b = r * T % b := by
      rw [hN, Nat.mul_add_mod]
    have hu : r * T / b < T := by
      rw [Nat.div_lt_iff_lt_mul hb]
      rw [Nat.mul_comm T b]
      exact Nat.mul_lt_mul_of_pos_right hrb hT
    have hlow : q * T < cocienteRedondeado (a * T) b := by
      by_cases hu0 : r * T / b = 0
      · have hlt : r * T < b := (Nat.div_eq_zero_iff hb).1 hu0
        have hrho : a * T % b = r * T := by rw [hmod]; exact Nat.mod_eq_of_lt hlt
        have hrT : T ≤ r * T := Nat.le_mul_of_pos_left T (Nat.pos_of_ne_zero hr0)
        have hmitad : b < 2 * (a * T % b) := by rw [hrho]; omega
        rw [cocienteRedondeado_arriba _ _ hmitad, hdiv]
        exact Nat.lt_succ_of_le (Nat.le_add_right _ _)
      · have hupos : 0 < r * T / b := Nat.pos_of_ne_zero hu0
        have h1 := hcot.1
        rw [hdiv] at h1
        generalize r * T / b = u at *
        omega
    have hhigh : cocienteRedondeado (a * T) b ≤ q * T + T := by
      have h2 := hcot.2
      rw [hdiv] at h2
      generalize r * T / b = u at *
      omega
    have e3 : (q + 1) * T = q * T + T := by ring
    have e4 : (q + 1 + 1) * T = q * T + T + T := by ring
    exact Nat.div_eq_of_lt_le (by rw [e3]; omega) (by show _ < (q + 1 + 1) * T; rw [e4]; omega)

/-- For a count below `2^53` and a limit from 1 to below `2^1024`, `Math.ceil(total / limit)`
is the ceiling of the exact quotient. -/
theorem paginasDe_techo (total : Nat) (l : Int) (ht : total < 2 ^ 53) (h1 : 1 ≤ l)
    (h2 : l < 2 ^ 1024) :
    paginasDe total l = some (((total + l.toNat - 1) / l.toNat : Nat) : Int) := by
  obtain ⟨b, rfl⟩ := Int.eq_ofNat_of_zero_le (by omega : 0 ≤ l)
  have hb : 0 < b := by omega
  have hb2 : b < 2 ^ 1024 := by exact_mod_cast h2
  unfold paginasDe
  rw [if_neg (by omega), if_pos (by omega)]
  simp only [Int.toNat_ofNat]
  congr 2
  unfold cocienteDoble
  by_cases h0 : total = 0
  · rw [if_pos h0, h0]
    simp only [Nat.zero_add, Nat.add_sub_cancel, Nat.zero_div]
    exact (Nat.div_eq_of_lt (by omega)).symm
  · have hq : ¬ 2 ^ 53 ≤ total / b := by
      have := Nat.div_le_self total b
      omega
    rw [if_neg h0, if_neg hq]
    simp only
    apply techo_redondeado total b _ hb ht
    apply escalaDe_alcanza
    rw [Nat.le_div_iff_mul_le hb]
    have hpot : ∀ x y z : Nat, x + y ≤ z → 2 ^ x * 2 ^ y ≤ 2 ^ z := by
      intro x y z h
      rw [← pow_add]
      exact Nat.pow_le_pow_right (by decide) h
    calc 2 ^ 52 * b ≤ 2 ^ 52 * 2 ^ 1024 := Nat.mul_le_mul_left _ (Nat.le_of_lt hb2)
      _ ≤ 2 ^ (0 + 1200) := hpot 52 1024 (0 + 1200) (by decide)
      _ ≤ total * 2 ^ (0 + 1200) := Nat.le_mul_of_pos_left _ (Nat.pos_of_ne_zero h0)

/-- The quotient `(a + b - 1) / b` of natural numbers is the ceiling of `a / b`: the least `n`
with `n * b ≥ a`. -/
theorem techo_natural (a b : Nat) (hb : 0 < b) :
    (((a + b - 1) / b : Nat) : Int) = ⌈(a : ℚ) / (b : ℚ)⌉
    ∧ a ≤ (a + b - 1) / b * b
    ∧ (∀ k : Nat, a ≤ k * b → (a + b - 1) / b ≤ k)
    ∧ (a = 0 → (a + b - 1) / b = 0) := by
  have hbq : (0 : ℚ) < (b : ℚ) := by exact_mod_cast hb
  have hle : (a + b - 1) / b * b ≤ a + b - 1 := Nat.div_mul_le_self _ _
  have hlt : a + b - 1 < b * ((a + b - 1) / b + 1) := Nat.lt_mul_div_succ _ hb
  generalize (a + b - 1) / b = n at *
  have hlt2 : a + b - 1 < n * b + b := by
    have : b * (n + 1) = n * b + b := by ring
    omega
  have h1 : a ≤ n * b := by omega
  have h2 : n * b < a + b := by omega
  refine ⟨?_, h1, ?_, ?_⟩
  · symm
    rw [Int.ceil_eq_iff]
    constructor
    · rw [lt_div_iff₀ hbq]
      have : ((n * b : Nat) : ℚ) < ((a + b : Nat) : ℚ) := by exact_mod_cast h2
      push_cast at this ⊢
      linarith
    · rw [div_le_iff₀ hbq]
      have : ((a : Nat) : ℚ) ≤ ((n * b : Nat) : ℚ) := by exact_mod_cast h1
      push_cast at this ⊢
      linarith
  · intro k hk
    by_contra hc
    have hkn : k + 1 ≤ n := by omega
    have : (k + 1) * b ≤ n * b := Nat.mul_le_mul_right _ hkn
    have e : (k + 1) * b = k * b + b := by ring
    omega
  · intro ha
    subst ha
    by_contra hc
    have hn : 1 ≤ n := Nat.pos_of_ne_zero hc
    have : 1 * b ≤ n * b := Nat.mul_le_mul_right _ hn
    omega

/-- `Math.ceil(total / limit)` at 25 rows by 12, at 24 by 12, at none, and by a limit of 0. -/
theorem paginasDe_ejemplos :
    paginasDe 25 12 = some 3 ∧ paginasDe 24 12 = some 2 ∧ paginasDe 0 12 = some 0
    ∧ paginasDe 25 0 = none := by
  decide

/-- A count of rows below `2^53` is a double: `parseInt` of its decimal text is the count. -/
theorem totalDe_exacto (cuenta : Nat) (h : cuenta < 2 ^ 53) : totalDe cuenta = cuenta := by
  simp only [totalDe, dobleDeNat, if_pos h]

/-- With a database call in scope: on a table of fewer than `2^53` rows and a request whose
limit `l ≥ 1` and offset the database accepts, the handler answers; the total of the answer is
the number of rows of the table that satisfy the conditions of the WHERE clause under the bound
values of the page query, which are those of the count query followed by the limit and the
offset; and its page count is `⌈total / l⌉`, the least `n` with `n * l ≥ total`, which is 0 for
a total of 0. -/
theorem paginas_con_query (m : Motor) (catalogo : List Producto) (req : Peticion) (l o : Int)
    (hl : limiteDe req.query = some l) (ho : offsetDe req.query = some o)
    (h1 : 1 ≤ l) (h2 : l < 2 ^ 63) (h3 : 0 ≤ o) (h4 : o < 2 ^ 63)
    (ht : catalogo.length < 2 ^ 53) :
    ∃ (r : RespuestaCatalogo) (n : Int), listarCatalogo (some m) catalogo req = .ok r
      ∧ r.pagination.total
          = (seleccionar m (condiciones req) (valoresPagina req) catalogo).length
      ∧ (construirFiltro req).valores <+: valoresPagina req
      ∧ r.pagination.pages = some n
      ∧ n = ⌈(r.pagination.total : ℚ) / (l : ℚ)⌉
      ∧ (r.pagination.total : Int) ≤ n * l
      ∧ (∀ k : Int, (r.pagination.total : Int) ≤ k * l → n ≤ k)
      ∧ (r.pagination.total = 0 → n = 0) := by
  have hsel : (seleccionar m (condiciones req) (construirFiltro req).valores catalogo).length
      < 2 ^ 53 := by
    unfold seleccionar
    exact Nat.lt_of_le_of_lt (List.length_filter_le _ _) ht
  have hlq : (0 : ℚ) < (l : ℚ) := by exact_mod_cast (by omega : (0 : Int) < l)
  have hb : 0 < l.toNat := by omega
  have hcast : ((l.toNat : Nat) : ℚ) = (l : ℚ) := by
    have : ((l.toNat : Nat) : Int) = l := Int.toNat_of_nonneg (by omega)
    exact_mod_cast this
  have hl1024 : l < 2 ^ 1024 :=
    lt_of_lt_of_le h2 (pow_le_pow_right₀ (by decide) (by decide))
  refine ⟨_, ⌈((seleccionar m (condiciones req) (construirFiltro req).valores catalogo).length
      : ℚ) / (l : ℚ)⌉, listar_con_query m catalogo req l o hl ho (by omega) h3 h2 h4, ?_⟩
  simp only
  rw [totalDe_exacto _ hsel, paginasDe_techo _ l hsel h1 hl1024,
    (techo_natural _ l.toNat hb).1, hcast]
  refine ⟨?_, List.prefix_append _ _, rfl, rfl, ?_, ?_, ?_⟩
  · rw [valoresPagina, seleccionar_append]
  · have h := Int.le_ceil (((seleccionar m (condiciones req) (construirFiltro req).valores
      catalogo).length : ℚ) / (l : ℚ))
    rw [div_le_iff₀ hlq] at h
    exact_mod_cast h
  · intro k hk
    rw [Int.ceil_le, div_le_iff₀ hlq]
    exact_mod_cast hk
  · intro h0
    simp [h0]

/-- C5, on the code as it stands: for every catalogue and request the handler reaches the
count query of line 141, whose `query` the module `config/database` does not export, and throws
`TypeError: query is not a function` (500); it gives no answer, and so returns no total and no
page count. -/
theorem paginacion_sin_query (catalogo : List Producto) (req : Peticion) :
    listarCatalogo queryDeCatalogo catalogo req = .error (.Error "query is not a function")
    ∧ (ErrorHttp.Error "query is not a function").status = 500
    ∧ ∀ r : RespuestaCatalogo, listarCatalogo queryDeCatalogo catalogo req ≠ .ok r := by
  have h : listarCatalogo queryDeCatalogo catalogo req
      = .error (.Error "query is not a function") := rfl
  refine ⟨h, rfl, ?_⟩
  intro r hr
  rw [h] at hr
  cases hr

/-- C5 at a catalogue of two products and a request for page 3 with a limit of 5. -/
theorem paginacion_sin_query_testigo :
    listarCatalogo queryDeCatalogo [mesaActiva, sillaInactiva] peticionPaginaTres
      = .error (.Error "query is not a function") :=
  (paginacion_sin_query [mesaActiva, sillaInactiva] peticionPaginaTres).1

/-! ## `PUT /catalogo/:id` -/

/-- The update builder run from any state appends the assignments of the supplied fields,
numbered from the running counter, and their values. -/
theorem foldl_pasoCampo (value : Cuerpo) (a : Actualizacion) :
    value.foldl pasoCampo a
      = { campos := a.campos ++ asignaciones a.contador (suministrados value)
          valores := a.valores ++ (suministrados value).map (fun x => x.2)
          contador := a.contador + (suministrados value).length } := by
  induction value generalizing a with
  | nil => simp [suministrados, asignaciones]
  | cons e value ih =>
    rw [List.foldl_cons, ih]
    obtain ⟨campo, valor⟩ := e
    cases valor with
    | none =>
      have : suministrados ((campo, none) :: value) = suministrados value := by
        simp [suministrados]
      rw [this]
      rfl
    | some v =>
      have : suministrados ((campo, some v) :: value) = (campo, v) :: suministrados value := by
        simp [suministrados]
      rw [this]
      simp [pasoCampo, asignaciones, List.enumFrom_cons, Nat.add_comm, Nat.add_left_comm]

/-- C6: the SET list of the UPDATE statement holds one assignment `campo = $k` for each field
of the validated body whose value is not `undefined` and nothing else, in the body's order with
`k` running from 1 to their number `n`; the bound values are those fields' values in the same
order followed by the id, and the WHERE line uses the placeholder `$(n+1)`. -/
theorem actualizacion_solo_suministrados (value : Cuerpo) (id : String) :
    (construirActualizacion value).campos = asignaciones 1 (suministrados value)
    ∧ (construirActualizacion value).campos.length = (suministrados value).length
    ∧ (∀ (i : Nat) (campo : String) (valor : Valor),
        (suministrados value).get? i = some (campo, valor) →
          (construirActualizacion value).campos.get? i
            = some (campo ++ " = $" ++ toString (i + 1))
          ∧ (sentenciaUpdate (construirActualizacion value) id).valores.get? i = some valor)
    ∧ (sentenciaUpdate (construirActualizacion value) id).valores
        = (suministrados value).map (fun x => x.2) ++ [Valor.texto id]
    ∧ whereUpdate (construirActualizacion value)
        = "WHERE id = $" ++ toString ((suministrados value).length + 1)
    ∧ (sentenciaUpdate (construirActualizacion value) id).sql
        = "\n    UPDATE catalogo \n    SET "
            ++ ", ".intercalate (asignaciones 1 (suministrados value))
            ++ "\n    WHERE id = $" ++ toString ((suministrados value).length + 1)
            ++ "\n    RETURNING *\n  " := by
  have h : construirActualizacion value
      = { campos := asignaciones 1 (suministrados value)
          valores := (suministrados value).map (fun x => x.2)
          contador := 1 + (suministrados value).length } := by
    unfold construirActualizacion
    rw [foldl_pasoCampo]
    simp
  rw [h]
  refine ⟨rfl, by simp [asignaciones], ?_, rfl, by simp [whereUpdate, Nat.add_comm], ?_⟩
  · intro i campo valor hi
    constructor
    · simp only [asignaciones, List.get?_eq_getElem?, List.getElem?_map] at hi ⊢
      rw [List.getElem?_enumFrom, hi]
      simp [Nat.add_comm]
    · simp only [sentenciaUpdate, List.get?_eq_getElem?] at hi ⊢
      have hlt : i < (suministrados value).length := by
        by_contra hge
        rw [List.getElem?_eq_none (by omega)] at hi
        cases hi
      rw [List.getElem?_append_left (by simpa using hlt), List.getElem?_map, hi]
      rfl
  · have hjunta : ∀ x : String,
        "\n    " ++ ("WHERE id = $" ++ x) = "\n    WHERE id = $" ++ x := by
      intro x
      rw [← String.append_assoc]
      rfl
    simp only [sentenciaUpdate, whereUpdate, Nat.add_comm, String.append_assoc, hjunta]

/-- With a database call in scope: on an existing product, a validated body that supplies no
field makes the handler throw the validation error `No se proporcionaron campos para
actualizar`; the only statement it has issued is the existence check, no UPDATE, and the
catalogue is the one it found. -/
theorem actualizacion_vacia_con_query (m : Motor) (catalogo : List Producto) (id : String)
    (value : Cuerpo) (hex : ∃ p ∈ catalogo, p.id = id)
    (hvacio : ∀ entrada ∈ value, entrada.2 = none) :
    (actualizarProducto (some m) catalogo id (.ok value)).respuesta
        = .error (.ValidationError "No se proporcionaron campos para actualizar")
    ∧ (actualizarProducto (some m) catalogo id (.ok value)).catalogo = catalogo
    ∧ (actualizarProducto (some m) catalogo id (.ok value)).emitidas = [sentenciaExiste id]
    ∧ ∀ s ∈ (actualizarProducto (some m) catalogo id (.ok value)).emitidas,
        includes s.sql "UPDATE" = false := by
  have hsum : suministrados value = [] := by
    unfold suministrados
    rw [List.filterMap_eq_nil_iff]
    intro e he
    simp [hvacio e he]
  have hcampos : (construirActualizacion value).campos.length = 0 := by
    unfold construirActualizacion
    rw [foldl_pasoCampo, hsum]
    rfl
  have hexiste : (buscarPorId catalogo id).length ≠ 0 := by
    obtain ⟨p, hp, hid⟩ := hex
    have : p ∈ buscarPorId catalogo id := by
      simp [buscarPorId, List.mem_filter, hp, hid]
    intro h0
    rw [List.length_eq_zero] at h0
    rw [h0] at this
    cases this
  have hres : actualizarProducto (some m) catalogo id (.ok value)
      = { respuesta := .error (.ValidationError "No se proporcionaron campos para actualizar")
          catalogo := catalogo
          emitidas := [sentenciaExiste id] } := by
    unfold actualizarProducto
    simp only [hexiste, if_false, hcampos, if_true]
  rw [hres]
  refine ⟨rfl, rfl, rfl, ?_⟩
  intro s hs
  rw [List.mem_singleton] at hs
  subst hs
  show includes "SELECT id FROM catalogo WHERE id = $1" "UPDATE" = false
  decide

/-- C7, on the code as it stands: a body that fails the schema is refused with the message of
the validation, before any database call; but every validated body, and so the one that
supplies no field on an existing product, reaches the existence check of line 263, whose
`query` the module `config/database` does not export: the handler throws
`TypeError: query is not a function` (500), which is not the validation error
`No se proporcionaron campos para actualizar` (400) of line 282. It has issued no statement and
the catalogue is the one it found. -/
theorem actualizacion_vacia_sin_query (catalogo : List Producto) (id : String) :
    (∀ value : Cuerpo,
      (actualizarProducto queryDeCatalogo catalogo id (.ok value)).respuesta
          = .error (.Error "query is not a function")
      ∧ (actualizarProducto queryDeCatalogo catalogo id (.ok value)).respuesta
          ≠ .error (.ValidationError "No se proporcionaron campos para actualizar")
      ∧ (actualizarProducto queryDeCatalogo catalogo id (.ok value)).catalogo = catalogo
      ∧ (actualizarProducto queryDeCatalogo catalogo id (.ok value)).emitidas = [])
    ∧ (ErrorHttp.Error "query is not a function").status = 500
    ∧ (ErrorHttp.ValidationError "No se proporcionaron campos para actualizar").status = 400
    ∧ ∀ mensaje : String,
        (actualizarProducto queryDeCatalogo catalogo id (.error mensaje)).respuesta
          = .error (.ValidationError mensaje) := by
  refine ⟨fun value => ⟨rfl, ?_, rfl, rfl⟩, rfl, rfl, fun _ => rfl⟩
  intro h
  have h2 : actualizarProducto queryDeCatalogo catalogo id (.ok value) = sinQuery catalogo := rfl
  rw [h2] at h
  simp [sinQuery] at h

/-- C7 at a catalogue of one product and an empty body. -/
theorem actualizacion_vacia_sin_query_testigo :
    (∃ p ∈ [mesaActiva], p.id = "1")
    ∧ (actualizarProducto queryDeCatalogo [mesaActiva] "1" (.ok [])).respuesta
        = .error (.Error "query is not a function") :=
  ⟨⟨mesaActiva, List.mem_singleton_self _, rfl⟩,
   ((actualizacion_vacia_sin_query [mesaActiva] "1").1 []).1⟩

/-- C6 at a body that supplies a name and an active flag and leaves the type undefined. -/
theorem actualizacion_solo_suministrados_testigo :
    (sentenciaUpdate (construirActualizacion cuerpoEjemplo) "7").valores
      = (suministrados cuerpoEjemplo).map (fun x => x.2) ++ [Valor.texto "7"] :=
  (actualizacion_solo_suministrados cuerpoEjemplo "7").2.2.2.1

/-! ## `DELETE /catalogo/:id` -/

theorem buscarPorId_vacio (catalogo : List Producto) (id : String) :
    (buscarPorId catalogo id).length = 0 ↔ ¬ ∃ p ∈ catalogo, p.id = id := by
  unfold buscarPorId
  rw [List.length_eq_zero, List.filter_eq_nil_iff]
  simp

theorem fijarActivo_get (b : Bool) (id : String) (catalogo : List Producto) (i : Nat) :
    (fijarActivo b id catalogo).get? i
      = (catalogo.get? i).map (fun p => if p.id = id then { p with activo := b } else p) := by
  unfold fijarActivo
  simp [List.get?_eq_getElem?]

/-- With a database call in scope: `DELETE /catalogo/:id` on an existing product answers, keeps
the number of rows, turns each row of that id into the same row with `activo = false` and
leaves every other row as it was, issuing an existence check and one UPDATE of the flag and no
DELETE; on an id that no row has it throws the not-found error (404) and leaves the catalogue
as it was. -/
theorem eliminar_con_query (m : Motor) (catalogo : List Producto) (id : String) :
    ((∃ p ∈ catalogo, p.id = id) →
      (eliminarProducto (some m) catalogo id).respuesta
          = .ok "Producto desactivado exitosamente del catálogo"
      ∧ (eliminarProducto (some m) catalogo id).catalogo.length = catalogo.length
      ∧ (∀ (i : Nat) (p : Producto), catalogo.get? i = some p →
          (p.id = id →
            (eliminarProducto (some m) catalogo id).catalogo.get? i
              = some { p with activo := false })
          ∧ (p.id ≠ id → (eliminarProducto (some m) catalogo id).catalogo.get? i = some p))
      ∧ (eliminarProducto (some m) catalogo id).emitidas
          = [sentenciaExisteNombre id, sentenciaDesactivar id]
      ∧ ∀ s ∈ (eliminarProducto (some m) catalogo id).emitidas,
          includes s.sql "DELETE" = false)
    ∧ ((¬ ∃ p ∈ catalogo, p.id = id) →
      (eliminarProducto (some m) catalogo id).respuesta
          = .error (.NotFoundError "Producto no encontrado en el catálogo")
      ∧ (ErrorHttp.NotFoundError "Producto no encontrado en el catálogo").status = 404
      ∧ (eliminarProducto (some m) catalogo id).catalogo = catalogo) := by
  constructor
  · intro hex
    have hne : (buscarPorId catalogo id).length ≠ 0 := by
      rw [Ne, buscarPorId_vacio]
      exact not_not.2 hex
    have hres : eliminarProducto (some m) catalogo id
        = { respuesta := .ok "Producto desactivado exitosamente del catálogo"
            catalogo := fijarActivo false id catalogo
            emitidas := [sentenciaExisteNombre id, sentenciaDesactivar id] } := by
      unfold eliminarProducto
      simp only
      rw [if_neg hne]
    rw [hres]
    refine ⟨rfl, by simp [fijarActivo], ?_, rfl, ?_⟩
    · intro i p hi
      simp only
      rw [fijarActivo_get, hi]
      constructor
      · intro hid
        simp [hid]
      · intro hid
        simp [hid]
    · intro s hs
      simp only [List.mem_cons, List.mem_singleton, List.not_mem_nil, or_false] at hs
      rcases hs with rfl | rfl
      · show includes "SELECT id, nombre FROM catalogo WHERE id = $1" "DELETE" = false
        decide
      · show includes "UPDATE catalogo SET activo = false WHERE id = $1" "DELETE" = false
        decide
  · intro hno
    have h0 : (buscarPorId catalogo id).length = 0 := (buscarPorId_vacio catalogo id).2 hno
    unfold eliminarProducto
    simp only
    rw [if_pos h0]
    exact ⟨rfl, rfl, rfl⟩

/-- C8, on the code as it stands: for every catalogue and id the handler reaches the existence
check of line 318, whose `query` the module `config/database` does not export, and throws
`TypeError: query is not a function` (500). It issues no statement and leaves every row as it
was, so a product that exists and is active stays active, and an id that no row has is
answered with that error and not with the not-found error (404). -/
theorem eliminar_sin_query (catalogo : List Producto) (id : String) :
    (eliminarProducto queryDeCatalogo catalogo id).respuesta
        = .error (.Error "query is not a function")
    ∧ (ErrorHttp.Error "query is not a function").status = 500
    ∧ (eliminarProducto queryDeCatalogo catalogo id).catalogo = catalogo
    ∧ (eliminarProducto queryDeCatalogo catalogo id).emitidas = []
    ∧ (∀ p ∈ catalogo, p.id = id → p.activo = true →
        ∃ q ∈ (eliminarProducto queryDeCatalogo catalogo id).catalogo,
          q.id = id ∧ q.activo = true)
    ∧ (eliminarProducto queryDeCatalogo catalogo id).respuesta
        ≠ .error (.NotFoundError "Producto no encontrado en el catálogo") := by
  refine ⟨rfl, rfl, rfl, rfl, fun p hp hid hact => ⟨p, hp, hid, hact⟩, ?_⟩
  intro h
  have h2 : eliminarProducto queryDeCatalogo catalogo id = sinQuery catalogo := rfl
  rw [h2] at h
  simp [sinQuery] at h

/-- C8 at a catalogue of two products, deleting the active one. -/
theorem eliminar_sin_query_testigo :
    (eliminarProducto queryDeCatalogo [mesaActiva, sillaInactiva] "1").respuesta
        = .error (.Error "query is not a function")
    ∧ (eliminarProducto queryDeCatalogo [mesaActiva, sillaInactiva] "1").catalogo
        = [mesaActiva, sillaInactiva] :=
  ⟨(eliminar_sin_query [mesaActiva, sillaInactiva] "1").1,
   (eliminar_sin_query [mesaActiva, sillaInactiva] "1").2.2.1⟩

/-! ## Text search -/

theorem toLower_sin_comodin (c : Char) (h : c ≠ '%' ∧ c ≠ '_' ∧ c ≠ '\\') :
    c.toLower ≠ '%' ∧ c.toLower ≠ '_' ∧ c.toLower ≠ '\\' := by
  unfold Char.toLower
  simp only
  split
  · rename_i hn
    obtain ⟨h1, h2⟩ := hn
    generalize c.toNat = n at h1 h2
    interval_cases n <;> decide
  · exact h

theorem likeAux_porcentaje (p t : List Char) :
    likeAux false ('%' :: p) t = true ↔ ∃ x, x <:+ t ∧ likeAux false p x = true := by
  have h : likeAux false ('%' :: p) t = t.tails.any (fun s => likeAux false p s) := by
    cases t <;> simp [likeAux]
  rw [h, List.any_eq_true]
  simp only [List.mem_tails]

theorem likeAux_literal (c : Char) (p t : List Char) (h : c ≠ '%' ∧ c ≠ '_' ∧ c ≠ '\\') :
    likeAux false (c :: p) t = true ↔ ∃ r, t = c :: r ∧ likeAux false p r = true := by
  cases t with
  | nil => simp [likeAux, h.1, h.2.2]
  | cons d r =>
    simp only [likeAux, h.1, h.2.1, h.2.2, if_false, beq_iff_eq, Bool.and_eq_true,
      Bool.or_eq_true, false_or, List.cons.injEq]
    constructor
    · rintro ⟨rfl, hr⟩
      exact ⟨r, ⟨rfl, rfl⟩, hr⟩
    · rintro ⟨r', ⟨rfl, rfl⟩, hr⟩
      exact ⟨rfl, hr⟩

/-- A pattern that starts with characters without a special meaning matches the texts that
start with them and go on with a match of the rest of the pattern. -/
theorem likeAux_literales (s p t : List Char) (h : ∀ c ∈ s, c ≠ '%' ∧ c ≠ '_' ∧ c ≠ '\\') :
    likeAux false (s ++ p) t = true ↔ ∃ r, t = s ++ r ∧ likeAux false p r = true := by
  induction s generalizing t with
  | nil => simp
  | cons c s ih =>
    rw [List.cons_append, likeAux_literal c _ t (h c (List.mem_cons_self c s))]
    constructor
    · rintro ⟨r, rfl, hr⟩
      obtain ⟨r', rfl, hr'⟩ := (ih r (fun d hd => h d (List.mem_cons_of_mem c hd))).1 hr
      exact ⟨r', rfl, hr'⟩
    · rintro ⟨r, rfl, hr⟩
      exact ⟨s ++ r, rfl, (ih _ (fun d hd => h d (List.mem_cons_of_mem c hd))).2 ⟨r, rfl, hr⟩⟩

/-- Between two `%`, characters without a special meaning match the texts they occur in. -/
theorem like_subcadena (s t : List Char) (h : ∀ c ∈ s, c ≠ '%' ∧ c ≠ '_' ∧ c ≠ '\\') :
    like ('%' :: (s ++ ['%'])) t = true ↔ s <:+: t := by
  unfold like
  rw [likeAux_porcentaje]
  constructor
  · rintro ⟨x, ⟨pre, rfl⟩, hx⟩
    obtain ⟨r, rfl, -⟩ := (likeAux_literales s ['%'] x h).1 hx
    exact ⟨pre, r, by simp⟩
  · rintro ⟨pre, r, rfl⟩
    refine ⟨s ++ r, ⟨pre, by simp⟩, (likeAux_literales s ['%'] _ h).2 ⟨r, rfl, ?_⟩⟩
    rw [likeAux_porcentaje]
    exact ⟨[], List.nil_suffix, rfl⟩

theorem plegar_patron (s : String) : plegar ("%" ++ s ++ "%") = '%' :: (plegar s ++ ['%']) := by
  simp [plegar, String.data_append]

/-- `ILIKE` with the pattern `%s%`, for `s` without wildcard characters, is the occurrence of
`s` as a substring, letter case apart. -/
theorem ilike_subcadena (columna s : String) (h : sinComodines s) :
    ilike columna ("%" ++ s ++ "%") = true ↔ contieneSinCaja columna s := by
  unfold ilike contieneSinCaja
  rw [plegar_patron]
  apply like_subcadena
  intro c hc
  unfold plegar at hc
  obtain ⟨d, hd, rfl⟩ := List.mem_map.1 hc
  exact toLower_sin_comodin d (h d hd)

/-- The conditions of the filters after the text search come after those up to it. -/
theorem condiciones_desde_search (req : Peticion) :
    (agregarCond (decide (req.query.search.getD "" ≠ "")) Condicion.busqueda
      (condActivo req ([], 1))).1 <+: condiciones req := by
  unfold condiciones condicionesAcc
  exact (agregarCond_prefijo _ _ _).trans <| (agregarCond_prefijo _ _ _).trans <|
    (agregarCond_prefijo _ _ _).trans <| (agregarCond_prefijo _ _ _).trans <|
    (agregarCond_prefijo _ _ _).trans <| (agregarCond_prefijo _ _ _)

/-- C9, refuted as stated: the search string `m_sa` is not empty and occurs in no column of the
product, letter case apart, yet the product satisfies the search conjunct, because `_` in the
bound pattern `%m_sa%` stands for any character. -/
theorem busqueda_comodin_no_subcadena :
    peticionComodin.query.search = some "m_sa"
    ∧ condiciones peticionComodin = [Condicion.activoTrue, Condicion.busqueda 1]
    ∧ (construirFiltro peticionComodin).valores = [Valor.texto "%m_sa%"]
    ∧ (Condicion.busqueda 1).cumple motorNeutro (construirFiltro peticionComodin).valores
        mesaActiva = true
    ∧ ¬ contieneSinCaja mesaActiva.nombre "m_sa"
    ∧ mesaActiva.descripcion = some "Mesa de comedor"
    ∧ ¬ contieneSinCaja "Mesa de comedor" "m_sa"
    ∧ ¬ contieneSinCaja mesaActiva.tipo "m_sa" := by
  refine ⟨rfl, by decide, by decide, by decide, ?_, rfl, ?_, ?_⟩ <;>
    unfold contieneSinCaja <;> decide

/-- C9, amended: for a search string `s` that is not empty, the search conjunct is among the
conditions with a placeholder bound to the pattern `'%' + s + '%'`, and a product satisfies it
exactly when its name, its description or its type matches that pattern under `ILIKE`; when `s`
holds none of the characters `%`, `_` and backslash, that is exactly when `s` occurs, letter
case apart, as a substring of the name, of the description or of the type. -/
theorem busqueda_subcadena (req : Peticion) (s : String) (hs : req.query.search = some s)
    (hne : s ≠ "") :
    ∃ k, Condicion.busqueda k ∈ condiciones req
      ∧ valorDe (construirFiltro req).valores k = some (Valor.texto ("%" ++ s ++ "%"))
      ∧ (∀ (m : Motor) (p : Producto),
          (Condicion.busqueda k).cumple m (construirFiltro req).valores p
            = (ilike p.nombre ("%" ++ s ++ "%") || ilikeNulo p.descripcion ("%" ++ s ++ "%")
                || ilike p.tipo ("%" ++ s ++ "%")))
      ∧ (sinComodines s → ∀ (m : Motor) (p : Producto),
          (Condicion.busqueda k).cumple m (construirFiltro req).valores p = true
            ↔ (contieneSinCaja p.nombre s
                ∨ (∃ d, p.descripcion = some d ∧ contieneSinCaja d s)
                ∨ contieneSinCaja p.tipo s)) := by
  have hA := acorde_activo req acorde_inicial
  have hget : req.query.search.getD "" = s := by simp [hs]
  have hmem : Condicion.busqueda (condActivo req ([], 1)).2 ∈ condiciones req := by
    apply (condiciones_desde_search req).subset
    simp [agregarCond, hget, hne]
  have hval : (pasoSearch req (pasoActivo req filtroInicial)).valores
      = (pasoActivo req filtroInicial).valores ++ [Valor.texto ("%" ++ s ++ "%")] := by
    simp [pasoSearch, hget, hne]
  have hk : valorDe (construirFiltro req).valores (condActivo req ([], 1)).2
      = some (Valor.texto ("%" ++ s ++ "%")) := by
    rw [← hA.cuenta, ← hA.largo]
    rw [valorDe_prefijo (valores_desde_search req) _ (by omega) (by rw [hval]; simp), hval]
    unfold valorDe
    rw [if_neg (by omega), List.get?_eq_getElem?, List.getElem?_append_right (by omega)]
    simp
  have hcumple : ∀ (m : Motor) (p : Producto),
      (Condicion.busqueda (condActivo req ([], 1)).2).cumple m (construirFiltro req).valores p
        = (ilike p.nombre ("%" ++ s ++ "%") || ilikeNulo p.descripcion ("%" ++ s ++ "%")
            || ilike p.tipo ("%" ++ s ++ "%")) := by
    intro m p
    simp only [Condicion.cumple, hk]
  refine ⟨_, hmem, hk, hcumple, ?_⟩
  intro hsin m p
  rw [hcumple, Bool.or_eq_true, Bool.or_eq_true, ilike_subcadena _ _ hsin,
    ilike_subcadena _ _ hsin, or_assoc]
  apply or_congr Iff.rfl
  apply or_congr _ Iff.rfl
  cases hd : p.descripcion with
  | none => simp [ilikeNulo]
  | some d => simp [ilikeNulo, ilike_subcadena _ _ hsin]

/-- C9 amended, at an anonymous search for `mesa`. -/
theorem busqueda_subcadena_testigo :
    ({ query := { search := some "mesa" } } : Peticion).query.search = some "mesa"
    ∧ "mesa" ≠ ""
    ∧ ∃ k, Condicion.busqueda k ∈ condiciones { query := { search := some "mesa" } }
        ∧ valorDe (construirFiltro { query := { search := some "mesa" } }).valores k
            = some (Valor.texto ("%" ++ "mesa" ++ "%")) :=
  ⟨rfl, by decide,
   let ⟨k, h1, h2, _⟩ :=
     busqueda_subcadena { query := { search := some "mesa" } } "mesa" rfl (by decide)
   ⟨k, h1, h2⟩⟩

/-! ## `POST /usuarios/registrar` -/

theorem esDuplicado_iff (e : ErrorRemoto) :
    esDuplicado e = true ↔
      (e.status = some 409 ∨ "duplicate".data <:+: e.message.data
        ∨ "already exists".data <:+: e.message.data) := by
  simp [esDuplicado, includes, or_assoc]

/-- C10, on the code as it stands: an error of the remote registration call whose status is
409, or whose message contains `duplicate` or `already exists`, becomes the conflict error
(409), also when its status is 400, and an error that is neither such nor of status 400 becomes
the plain error `Error interno del servidor durante el registro` (500), as claimed. An other
error of status 400 becomes a validation error (400), with the remote message or `Datos de
registro inválidos`, only when the body of its response is neither `undefined` nor `null`: on
such a body line 127 reads `error.response.data.message` with no guard and a `TypeError` (500)
leaves the handler, which is no validation error. On a valid payload the handler throws the
error so mapped when the remote call throws. -/
theorem registro_mapea_errores (e : ErrorRemoto) :
    ((e.status = some 409 ∨ "duplicate".data <:+: e.message.data
        ∨ "already exists".data <:+: e.message.data) →
      errorRegistro e = .ConflictError "El correo electrónico ya está registrado"
      ∧ (errorRegistro e).status = 409)
    ∧ (¬ (e.status = some 409 ∨ "duplicate".data <:+: e.message.data
        ∨ "already exists".data <:+: e.message.data) →
      ∀ r : RespuestaRemota, e.response = some r → r.status = 400 →
        (∀ message : Option String, r.data = .valor message →
          errorRegistro e
              = .ValidationError (oPorDefecto message "Datos de registro inválidos")
          ∧ (errorRegistro e).status = 400)
        ∧ (r.data = .indefinido →
          errorRegistro e = .Error "Cannot read properties of undefined (reading 'message')")
        ∧ (r.data = .nulo →
          errorRegistro e = .Error "Cannot read properties of null (reading 'message')")
        ∧ (r.data = .indefinido ∨ r.data = .nulo →
          (errorRegistro e).status = 500
          ∧ ∀ mensaje : String, errorRegistro e ≠ .ValidationError mensaje))
    ∧ (¬ (e.status = some 409 ∨ "duplicate".data <:+: e.message.data
        ∨ "already exists".data <:+: e.message.data) → e.status ≠ some 400 →
      errorRegistro e = .Error "Error interno del servidor durante el registro"
      ∧ (errorRegistro e).status = 500)
    ∧ ∀ (value : DatosRegistro) (register : DatosRegistro → Except ErrorRemoto AltaRemota),
        register { value with
            telefono := value.telefono.bind (fun t => if t ≠ "" then some t else none) }
          = .error e →
        registrar (.ok value) register = .error (errorRegistro e) := by
  have hdef : ∀ b : Bool, esDuplicado e = b →
      errorRegistro e
        = if b then .ConflictError "El correo electrónico ya está registrado"
          else if e.status == some 400 then
            match e.response with
            | none => .Error "Cannot read properties of undefined (reading 'data')"
            | some r =>
              match r.data with
              | .indefinido => .Error "Cannot read properties of undefined (reading 'message')"
              | .nulo => .Error "Cannot read properties of null (reading 'message')"
              | .valor message =>
                .ValidationError (oPorDefecto message "Datos de registro inválidos")
          else .Error "Error interno del servidor durante el registro" := by
    intro b hb
    subst hb
    rfl
  refine ⟨?_, ?_, ?_, ?_⟩
  · intro h
    have := hdef true ((esDuplicado_iff e).2 h)
    rw [this]
    exact ⟨rfl, rfl⟩
  · intro h r hr h400
    have hb : esDuplicado e = false := by
      rw [← Bool.not_eq_true, esDuplicado_iff]
      exact h
    have hs : e.status = some 400 := by
      simp [ErrorRemoto.status, hr, h400]
    rw [hdef false hb]
    refine ⟨?_, ?_, ?_, ?_⟩
    · intro message hm
      simp [hs, hr, hm, ErrorHttp.status]
    · intro hm
      simp [hs, hr, hm]
    · intro hm
      simp [hs, hr, hm]
    · intro hm
      rcases hm with hm | hm <;> simp [hs, hr, hm, ErrorHttp.status]
  · intro h h400
    have hb : esDuplicado e = false := by
      rw [← Bool.not_eq_true, esDuplicado_iff]
      exact h
    rw [hdef false hb]
    simp [h400, ErrorHttp.status]
  · intro value register hreg
    simp only [registrar, hreg]

/-- C10 at an error of status 400 whose response has no body, and at one of status 400 whose
message contains `duplicate`, where the conflict mapping takes precedence. -/
theorem registro_mapea_errores_testigo :
    ¬ (error400SinDatos.status = some 409
        ∨ "duplicate".data <:+: error400SinDatos.message.data
        ∨ "already exists".data <:+: error400SinDatos.message.data)
    ∧ error400SinDatos.status = some 400
    ∧ errorRegistro error400SinDatos
        = .Error "Cannot read properties of undefined (reading 'message')"
    ∧ errorDuplicado400.status = some 400
    ∧ errorRegistro errorDuplicado400
        = .ConflictError "El correo electrónico ya está registrado" :=
  ⟨by decide, rfl,
   ((registro_mapea_errores error400SinDatos).2.1 (by decide)
      { status := 400, data := .indefinido } rfl rfl).2.1 rfl,
   rfl,
   ((registro_mapea_errores errorDuplicado400).1 (Or.inr (Or.inl (by decide)))).1⟩

/-! ## `POST /login` -/

/-- What the `catch` block of the login handler throws, by the remote status. -/
theorem errorLogin_casos (e : ErrorRemoto) :
    (e.status = some 400 → errorLogin e = .ValidationError "Datos de inicio de sesión inválidos")
    ∧ (e.status ≠ some 400 → ∃ mensaje, errorLogin e = .UnauthorizedError mensaje) := by
  constructor
  · intro h
    simp [errorLogin, h]
  · intro h
    by_cases h1 : e.status = some 401
    · exact ⟨"Credenciales inválidas. Verifica tu email y contraseña", by simp [errorLogin, h1]⟩
    · by_cases h3 : e.status = some 403
      · exact ⟨"Credenciales inválidas. Verifica tu email y contraseña",
          by simp [errorLogin, h3]⟩
      · by_cases h4 : e.status = some 404
        · exact ⟨"Usuario no encontrado. Verifica tu email o regístrate",
            by simp [errorLogin, h4]⟩
        · exact ⟨"Error durante el inicio de sesión. Intenta nuevamente",
            by simp [errorLogin, h, h1, h3, h4]⟩

/-- C11: for every error thrown by the remote login call the handler throws the unauthorized
error (401) exactly when the remote status is not 400, which covers 401, 403, 404, any other
status and an error with no response, and the validation error exactly when it is 400; on a
valid payload the handler throws that mapped error and so gives no success response and no
token. -/
theorem login_mapea_errores (e : ErrorRemoto) :
    ((∃ mensaje, errorLogin e = .UnauthorizedError mensaje) ↔ e.status ≠ some 400)
    ∧ ((errorLogin e).status = 401 ↔ e.status ≠ some 400)
    ∧ ((∃ mensaje, errorLogin e = .ValidationError mensaje) ↔ e.status = some 400)
    ∧ (e.response = none → ∃ mensaje, errorLogin e = .UnauthorizedError mensaje)
    ∧ ∀ (value : Credenciales) (loginRemoto : Credenciales → Except ErrorRemoto AltaRemota),
        loginRemoto value = .error e →
          login (.ok value) loginRemoto = .error (errorLogin e)
          ∧ ∀ r, login (.ok value) loginRemoto ≠ .ok r := by
  have hc := errorLogin_casos e
  by_cases h : e.status = some 400
  · have h1 := hc.1 h
    refine ⟨?_, ?_, ?_, ?_, ?_⟩
    · simp [h1, h]
    · simp [h1, h, ErrorHttp.status]
    · simp [h1, h]
    · intro hr
      simp [ErrorRemoto.status, hr] at h
    · intro value loginRemoto hl
      simp [login, hl]
  · obtain ⟨mensaje, h1⟩ := hc.2 h
    refine ⟨?_, ?_, ?_, ?_, ?_⟩
    · simp [h1, h]
    · simp [h1, h, ErrorHttp.status]
    · simp [h1, h]
    · intro _
      exact ⟨mensaje, h1⟩
    · intro value loginRemoto hl
      simp [login, hl]

/-- C11 at an error that carries no response. -/
theorem login_mapea_errores_testigo :
    errorSinRespuesta.response = none
    ∧ ∃ mensaje, errorLogin errorSinRespuesta = .UnauthorizedError mensaje :=
  ⟨rfl, (login_mapea_errores errorSinRespuesta).2.2.2.1 rfl⟩

/-! ## `POST /catalogo/:id/activar` -/

/-- With a database call in scope: `POST /catalogo/:id/activar` on an id whose first row is
deactivated answers, keeps the number of rows, turns each row of that id into the same row with
`activo = true` and leaves every other row as it was; when that row is active it throws the
validation error `El producto ya está activo`, and when no row has the id it throws the
not-found error; in both failures the catalogue is the one it found and no UPDATE has been
issued. -/
theorem activar_con_query (m : Motor) (catalogo : List Producto) (id : String) :
    (∀ (p : Producto) (resto : List Producto), buscarPorId catalogo id = p :: resto →
      p.activo = false →
        (activarProducto (some m) catalogo id).respuesta
            = .ok "Producto reactivado exitosamente en el catálogo"
        ∧ (activarProducto (some m) catalogo id).catalogo.length = catalogo.length
        ∧ (∀ (i : Nat) (q : Producto), catalogo.get? i = some q →
            (q.id = id →
              (activarProducto (some m) catalogo id).catalogo.get? i
                = some { q with activo := true })
            ∧ (q.id ≠ id → (activarProducto (some m) catalogo id).catalogo.get? i = some q))
        ∧ (activarProducto (some m) catalogo id).emitidas
            = [sentenciaExisteActivo id, sentenciaActivar id])
    ∧ (∀ (p : Producto) (resto : List Producto), buscarPorId catalogo id = p :: resto →
      p.activo = true →
        (activarProducto (some m) catalogo id).respuesta
            = .error (.ValidationError "El producto ya está activo")
        ∧ (activarProducto (some m) catalogo id).catalogo = catalogo
        ∧ (activarProducto (some m) catalogo id).emitidas = [sentenciaExisteActivo id])
    ∧ ((¬ ∃ p ∈ catalogo, p.id = id) →
        (activarProducto (some m) catalogo id).respuesta
            = .error (.NotFoundError "Producto no encontrado en el catálogo")
        ∧ (activarProducto (some m) catalogo id).catalogo = catalogo
        ∧ (activarProducto (some m) catalogo id).emitidas = [sentenciaExisteActivo id]) := by
  refine ⟨?_, ?_, ?_⟩
  · intro p resto hb hp
    have hres : activarProducto (some m) catalogo id
        = { respuesta := .ok "Producto reactivado exitosamente en el catálogo"
            catalogo := fijarActivo true id catalogo
            emitidas := [sentenciaExisteActivo id, sentenciaActivar id] } := by
      simp [activarProducto, hb, hp]
    rw [hres]
    refine ⟨rfl, by simp [fijarActivo], ?_, rfl⟩
    intro i q hi
    simp only
    rw [fijarActivo_get, hi]
    constructor
    · intro hid
      simp [hid]
    · intro hid
      simp [hid]
  · intro p resto hb hp
    simp [activarProducto, hb, hp]
  · intro hno
    have h0 : buscarPorId catalogo id = [] :=
      List.length_eq_zero.1 ((buscarPorId_vacio catalogo id).2 hno)
    simp [activarProducto, h0]

/-- C15, on the code as it stands: for every catalogue and id the handler reaches the lookup of
line 347, whose `query` the module `config/database` does not export, and throws
`TypeError: query is not a function` (500). It issues no statement and leaves every row as it
was, so a deactivated product stays deactivated; the error is neither the validation error
`El producto ya está activo` nor the not-found error, whatever the state of the product. -/
theorem activar_sin_query (catalogo : List Producto) (id : String) :
    (activarProducto queryDeCatalogo catalogo id).respuesta
        = .error (.Error "query is not a function")
    ∧ (ErrorHttp.Error "query is not a function").status = 500
    ∧ (activarProducto queryDeCatalogo catalogo id).catalogo = catalogo
    ∧ (activarProducto queryDeCatalogo catalogo id).emitidas = []
    ∧ (∀ p ∈ catalogo, p.id = id → p.activo = false →
        ∃ q ∈ (activarProducto queryDeCatalogo catalogo id).catalogo,
          q.id = id ∧ q.activo = false)
    ∧ (∀ r, (activarProducto queryDeCatalogo catalogo id).respuesta ≠ .ok r)
    ∧ (activarProducto queryDeCatalogo catalogo id).respuesta
        ≠ .error (.ValidationError "El producto ya está activo")
    ∧ (activarProducto queryDeCatalogo catalogo id).respuesta
        ≠ .error (.NotFoundError "Producto no encontrado en el catálogo") := by
  have h2 : activarProducto queryDeCatalogo catalogo id = sinQuery catalogo := rfl
  refine ⟨rfl, rfl, rfl, rfl, fun p hp hid hact => ⟨p, hp, hid, hact⟩, ?_, ?_, ?_⟩
  · intro r h
    rw [h2] at h
    simp [sinQuery] at h
  · intro h
    rw [h2] at h
    simp [sinQuery] at h
  · intro h
    rw [h2] at h
    simp [sinQuery] at h

/-- C15 at a catalogue of two products, reactivating the deactivated one. -/
theorem activar_sin_query_testigo :
    buscarPorId [mesaActiva, sillaInactiva] "2" = sillaInactiva :: []
    ∧ sillaInactiva.activo = false
    ∧ (activarProducto queryDeCatalogo [mesaActiva, sillaInactiva] "2").respuesta
        = .error (.Error "query is not a function")
    ∧ (activarProducto queryDeCatalogo [mesaActiva, sillaInactiva] "2").catalogo
        = [mesaActiva, sillaInactiva] :=
  ⟨by decide, rfl, (activar_sin_query [mesaActiva, sillaInactiva] "2").1,
   (activar_sin_query [mesaActiva, sillaInactiva] "2").2.2.1⟩

/-! ## The request interceptor of the outbound client -/

theorem startsWith_iff (s t : String) : startsWith s t = true ↔ t.data <+: s.data := by
  unfold startsWith
  exact List.isPrefixOf_iff_prefix

theorem startsWith_bearer (t : String) : startsWith ("Bearer " ++ t) "Bearer " = true := by
  rw [startsWith_iff, String.data_append]
  exact List.prefix_append _ _

/-- The header the interceptor leaves for a token that is not empty. -/
theorem interceptar_con_token (apiKey authorization : Option String) (t : String)
    (ht : oSiNo authorization apiKey = some t) (hne : t ≠ "") :
    interceptarAuthorization apiKey authorization
      = some (if startsWith t "Bearer " then t else "Bearer " ++ t) := by
  simp [interceptarAuthorization, ht, hne]

/-- C17: for a token `t` that is not empty, taken from the `Authorization` header of the
request when that is a non-empty string and else from the configured API key, the interceptor
leaves a header that starts with `Bearer `, equal to `t` when `t` starts with `Bearer ` and to
`Bearer ` followed by `t` otherwise; with no token it leaves the header as it was, which is
absent or empty; and in every case a second application changes nothing. -/
theorem interceptor_normaliza (apiKey authorization : Option String) :
    (∀ a, authorization = some a → a ≠ "" → oSiNo authorization apiKey = some a)
    ∧ ((authorization = none ∨ authorization = some "") → oSiNo authorization apiKey = apiKey)
    ∧ (∀ t, oSiNo authorization apiKey = some t → t ≠ "" →
        (∃ h, interceptarAuthorization apiKey authorization = some h ∧ "Bearer ".data <+: h.data)
        ∧ ("Bearer ".data <+: t.data → interceptarAuthorization apiKey authorization = some t)
        ∧ (¬ "Bearer ".data <+: t.data →
            interceptarAuthorization apiKey authorization = some ("Bearer " ++ t)))
    ∧ ((oSiNo authorization apiKey = none ∨ oSiNo authorization apiKey = some "") →
        interceptarAuthorization apiKey authorization = authorization
        ∧ (authorization = none ∨ authorization = some ""))
    ∧ interceptarAuthorization apiKey (interceptarAuthorization apiKey authorization)
        = interceptarAuthorization apiKey authorization := by
  refine ⟨?_, ?_, ?_, ?_, ?_⟩
  · intro a ha hne
    simp [oSiNo, ha, hne]
  · rintro (h | h) <;> simp [oSiNo, h]
  · intro t ht hne
    have hr := interceptar_con_token apiKey authorization t ht hne
    by_cases hb : startsWith t "Bearer " = true
    · have hp := (startsWith_iff _ _).1 hb
      rw [hb] at hr
      exact ⟨⟨t, hr, hp⟩, fun _ => hr, fun hn => absurd hp hn⟩
    · have hp : ¬ "Bearer ".data <+: t.data := fun h => hb ((startsWith_iff _ _).2 h)
      rw [Bool.eq_false_iff.2 hb] at hr
      simp only [Bool.false_eq_true, if_false] at hr
      refine ⟨⟨_, hr, ?_⟩, fun h => absurd h hp, fun _ => hr⟩
      rw [String.data_append]
      exact List.prefix_append _ _
  · intro h
    have hsame : interceptarAuthorization apiKey authorization = authorization := by
      rcases h with h | h <;> simp [interceptarAuthorization, h]
    refine ⟨hsame, ?_⟩
    cases authorization with
    | none => exact Or.inl rfl
    | some a =>
      by_cases ha : a = ""
      · exact Or.inr (by rw [ha])
      · rcases h with h | h <;> simp [oSiNo, ha] at h
  · cases ht : oSiNo authorization apiKey with
    | none =>
      have hsame : interceptarAuthorization apiKey authorization = authorization := by
        simp [interceptarAuthorization, ht]
      rw [hsame, hsame]
    | some t =>
      by_cases hne : t = ""
      · have hsame : interceptarAuthorization apiKey authorization = authorization := by
          simp [interceptarAuthorization, ht, hne]
        rw [hsame, hsame]
      · have hr := interceptar_con_token apiKey authorization t ht hne
        have hpre : ∃ h, interceptarAuthorization apiKey authorization = some h
            ∧ startsWith h "Bearer " = true ∧ h ≠ "" := by
          by_cases hb : startsWith t "Bearer " = true
          · rw [hb] at hr
            exact ⟨t, hr, hb, hne⟩
          · rw [Bool.eq_false_iff.2 hb] at hr
            simp only [Bool.false_eq_true, if_false] at hr
            refine ⟨_, hr, startsWith_bearer t, ?_⟩
            intro h0
            have h1 := congrArg String.length h0
            rw [String.length_append] at h1
            have h2 : "Bearer ".length = 7 := by decide
            have h3 : "".length = 0 := rfl
            omega
        obtain ⟨h, hh, hb, hhne⟩ := hpre
        rw [hh]
        have h2 := interceptar_con_token apiKey (some h) h (by simp [oSiNo, hhne]) hhne
        rw [h2, hb]
        rfl

/-- C17 at a request with no header and an API key. -/
theorem interceptor_normaliza_testigo :
    oSiNo none (some "clave") = some "clave"
    ∧ "clave" ≠ ""
    ∧ interceptarAuthorization (some "clave") none = some ("Bearer " ++ "clave") :=
  ⟨rfl, by decide,
   (((interceptor_normaliza (some "clave") none).2.2.1 "clave" rfl (by decide)).2.2)
     (by decide)⟩

/-! ## Alignment of placeholders and bound values -/

theorem alineado_inicial (req : Peticion) : Alineado req filtroInicial ([], 1) :=
  ⟨rfl, by simp, by simp⟩

theorem valorDe_ultimo (vs : List Valor) (v : Valor) :
    valorDe (vs ++ [v]) (vs.length + 1) = some v := by
  unfold valorDe
  rw [if_neg (by omega), List.get?_eq_getElem?, List.getElem?_append_right (by omega)]
  simp

/-- Appending a conjunct numbered with the counter, and the value of its filter, keeps the
alignment. -/
theorem alineado_agregar {req : Peticion} {f : Filtro} {acc : List Condicion × Nat}
    (hA : Acorde f acc) (hL : Alineado req f acc) (c : Nat → Condicion) (v : Valor)
    (hi : ∀ k, (c k).indice = some k) (hv : ∀ k, valorLigado req (c k) = some v) :
    Alineado req { whereClause := f.whereClause ++ (c f.contador).sql
                   valores := f.valores ++ [v], contador := f.contador + 1 }
      (acc.1 ++ [c acc.2], acc.2 + 1) := by
  have hn : acc.2 = f.valores.length + 1 := by rw [← hA.cuenta, hA.largo]
  refine ⟨?_, ?_, ?_⟩
  · simp only [List.filterMap_append, hL.enOrden, List.filterMap_cons, hi, List.filterMap_nil,
      List.length_append, List.length_singleton]
    rw [List.range'_concat, hn]
    simp [Nat.add_comm]
  · intro d hd k hk
    rcases List.mem_append.1 hd with hd | hd
    · have hb := hA.indices d hd k hk
      show valorDe (f.valores ++ [v]) k = valorLigado req d
      rw [valorDe_append _ _ _ hb.1 (by omega)]
      exact hL.ligados d hd k hk
    · rw [List.mem_singleton] at hd
      subst hd
      rw [hi] at hk
      cases hk
      show valorDe (f.valores ++ [v]) acc.2 = valorLigado req (c acc.2)
      rw [hv, hn]
      exact valorDe_ultimo _ _
  · intro d hd hk
    rcases List.mem_append.1 hd with hd | hd
    · exact hL.nombres d hd hk
    · rw [List.mem_singleton] at hd
      subst hd
      rw [hi] at hk
      cases hk

theorem alineado_activo (req : Peticion) {f : Filtro} {acc : List Condicion × Nat}
    (hA : Acorde f acc) (hL : Alineado req f acc) :
    Alineado req (pasoActivo req f) (condActivo req acc) := by
  unfold pasoActivo condActivo agregarCond
  by_cases hn : noEsAdministrador req = true
  · simp only [hn, if_true]
    refine ⟨?_, ?_, ?_⟩
    · simp [List.filterMap_append, hL.enOrden, Condicion.indice]
    · intro d hd k hk
      rcases List.mem_append.1 hd with hd | hd
      · exact hL.ligados d hd k hk
      · rw [List.mem_singleton] at hd
        subst hd
        cases hk
    · intro d hd hk
      rcases List.mem_append.1 hd with hd | hd
      · exact hL.nombres d hd hk
      · exact List.mem_singleton.1 hd
  · by_cases ha : req.query.activo.getD "true" = ""
    · simp [hn, ha, hL]
    · simp only [hn, ha, ne_eq, not_false_eq_true, decide_True, if_true, if_false]
      have := alineado_agregar hA hL Condicion.activoIgual
        (Valor.bool (req.query.activo.getD "true" == "true")) (fun _ => rfl) (fun _ => rfl)
      simpa [Condicion.sql, String.append_assoc] using this

theorem alineado_search (req : Peticion) {f : Filtro} {acc : List Condicion × Nat}
    (hA : Acorde f acc) (hL : Alineado req f acc) :
    Alineado req (pasoSearch req f)
      (agregarCond (decide (req.query.search.getD "" ≠ "")) Condicion.busqueda acc) := by
  unfold pasoSearch agregarCond
  by_cases hs : req.query.search.getD "" = ""
  · simp [hs, hL]
  · simp only [hs, ne_eq, not_false_eq_true, decide_True, if_true]
    have := alineado_agregar hA hL Condicion.busqueda
      (Valor.texto ("%" ++ req.query.search.getD "" ++ "%")) (fun _ => rfl) (fun _ => rfl)
    simpa [Condicion.sql, String.append_assoc] using this

theorem alineado_tipo (req : Peticion) {f : Filtro} {acc : List Condicion × Nat}
    (hA : Acorde f acc) (hL : Alineado req f acc) :
    Alineado req (pasoTipo req f)
      (agregarCond (decide (req.query.tipo.getD "" ≠ "")) Condicion.tipoIlike acc) := by
  unfold pasoTipo agregarCond
  by_cases hs : req.query.tipo.getD "" = ""
  · simp [hs, hL]
  · simp only [hs, ne_eq, not_false_eq_true, decide_True, if_true]
    have := alineado_agregar hA hL Condicion.tipoIlike
      (Valor.texto ("%" ++ req.query.tipo.getD "" ++ "%")) (fun _ => rfl) (fun _ => rfl)
    simpa [Condicion.sql, String.append_assoc] using this

theorem alineado_estilo (req : Peticion) {f : Filtro} {acc : List Condicion × Nat}
    (hA : Acorde f acc) (hL : Alineado req f acc) :
    Alineado req (pasoEstilo req f)
      (agregarCond (decide (req.query.estilo.getD "" ≠ "")) Condicion.estiloIlike acc) := by
  unfold pasoEstilo agregarCond
  by_cases hs : req.query.estilo.getD "" = ""
  · simp [hs, hL]
  · simp only [hs, ne_eq, not_false_eq_true, decide_True, if_true]
    have := alineado_agregar hA hL Condicion.estiloIlike
      (Valor.texto ("%" ++ req.query.estilo.getD "" ++ "%")) (fun _ => rfl) (fun _ => rfl)
    simpa [Condicion.sql, String.append_assoc] using this

theorem alineado_precioMin (req : Peticion) {f : Filtro} {acc : List Condicion × Nat}
    (hA : Acorde f acc) (hL : Alineado req f acc) :
    Alineado req (pasoPrecioMin req f)
      (agregarCond (decide (req.query.precio_min.getD "" ≠ "")) Condicion.precioMin acc) := by
  unfold pasoPrecioMin agregarCond
  by_cases hs : req.query.precio_min.getD "" = ""
  · simp [hs, hL]
  · simp only [hs, ne_eq, not_false_eq_true, decide_True, if_true]
    have := alineado_agregar hA hL Condicion.precioMin
      (Valor.flotante (req.query.precio_min.getD "")) (fun _ => rfl) (fun _ => rfl)
    simpa [Condicion.sql, String.append_assoc] using this

theorem alineado_precioMax (req : Peticion) {f : Filtro} {acc : List Condicion × Nat}
    (hA : Acorde f acc) (hL : Alineado req f acc) :
    Alineado req (pasoPrecioMax req f)
      (agregarCond (decide (req.query.precio_max.getD "" ≠ "")) Condicion.precioMax acc) := by
  unfold pasoPrecioMax agregarCond
  by_cases hs : req.query.precio_max.getD "" = ""
  · simp [hs, hL]
  · simp only [hs, ne_eq, not_false_eq_true, decide_True, if_true]
    have := alineado_agregar hA hL Condicion.precioMax
      (Valor.flotante (req.query.precio_max.getD "")) (fun _ => rfl) (fun _ => rfl)
    simpa [Condicion.sql, String.append_assoc] using this

theorem alineado_materiales (req : Peticion) {f : Filtro} {acc : List Condicion × Nat}
    (hA : Acorde f acc) (hL : Alineado req f acc) :
    Alineado req (pasoMateriales req f)
      (agregarCond (decide (req.query.materiales.getD "" ≠ "")) Condicion.materialesSolapa
        acc) := by
  unfold pasoMateriales agregarCond
  by_cases hs : req.query.materiales.getD "" = ""
  · simp [hs, hL]
  · simp only [hs, ne_eq, not_false_eq_true, decide_True, if_true]
    have := alineado_agregar hA hL Condicion.materialesSolapa
      (Valor.lista (splitTrim (req.query.materiales.getD ""))) (fun _ => rfl) (fun _ => rfl)
    simpa [Condicion.sql, String.append_assoc] using this

theorem alineado_colores (req : Peticion) {f : Filtro} {acc : List Condicion × Nat}
    (hA : Acorde f acc) (hL : Alineado req f acc) :
    Alineado req (pasoColores req f)
      (agregarCond (decide (req.query.colores.getD "" ≠ "")) Condicion.coloresSolapa acc) := by
  unfold pasoColores agregarCond
  by_cases hs : req.query.colores.getD "" = ""
  · simp [hs, hL]
  · simp only [hs, ne_eq, not_false_eq_true, decide_True, if_true]
    have := alineado_agregar hA hL Condicion.coloresSolapa
      (Valor.lista (splitTrim (req.query.colores.getD ""))) (fun _ => rfl) (fun _ => rfl)
    simpa [Condicion.sql, String.append_assoc] using this

/-- The filter the handler builds is aligned with the parsed conditions of the request. -/
theorem alineado_construir (req : Peticion) :
    Alineado req (construirFiltro req) (condicionesAcc req) := by
  have a0 := acorde_activo req acorde_inicial
  have l0 := alineado_activo req acorde_inicial (alineado_inicial req)
  have a1 := acorde_search req a0
  have l1 := alineado_search req a0 l0
  have a2 := acorde_tipo req a1
  have l2 := alineado_tipo req a1 l1
  have a3 := acorde_estilo req a2
  have l3 := alineado_estilo req a2 l2
  have a4 := acorde_precioMin req a3
  have l4 := alineado_precioMin req a3 l3
  have a5 := acorde_precioMax req a4
  have l5 := alineado_precioMax req a4 l4
  have a6 := acorde_materiales req a5
  have l6 := alineado_materiales req a5 l5
  exact alineado_colores req a6 l6

theorem condiciones_eq_por (req : Peticion) :
    condiciones req
      = condicionesPor (noEsAdministrador req) (decide (req.query.activo.getD "true" ≠ ""))
          (decide (req.query.search.getD "" ≠ "")) (decide (req.query.tipo.getD "" ≠ ""))
          (decide (req.query.estilo.getD "" ≠ "")) (decide (req.query.precio_min.getD "" ≠ ""))
          (decide (req.query.precio_max.getD "" ≠ ""))
          (decide (req.query.materiales.getD "" ≠ ""))
          (decide (req.query.colores.getD "" ≠ "")) := by
  unfold condiciones condicionesAcc condicionesPor condActivo
  cases noEsAdministrador req <;> rfl

theorem filtro_condicionesPor :
    ∀ a b c d e f g h i : Bool,
      (condicionesPor a b c d e f g h i).map Condicion.filtro = filtrosPor a b c d e f g h i := by
  decide

theorem prefijo_condicionesPor :
    ∀ a b c d e f g h i : Bool,
      ∀ x ∈ condicionesPor a b c d e f g h i, " AND ".data.isPrefixOf x.sql.data = true := by
  decide

theorem isPrefixOf_and_append (u t : List Char) (hu : u ≠ []) (hfin : finLibre u) :
    " AND ".data.isPrefixOf (u ++ t) = " AND ".data.isPrefixOf u := by
  rw [Bool.eq_iff_iff, List.isPrefixOf_iff_prefix, List.isPrefixOf_iff_prefix]
  constructor
  · intro h
    by_cases hlen : " AND ".data.length ≤ u.length
    · exact List.prefix_of_prefix_length_le h (List.prefix_append u t) hlen
    · exfalso
      have hpre : u <+: " AND ".data :=
        List.prefix_of_prefix_length_le (List.prefix_append u t) h (by omega)
      obtain ⟨c, hc⟩ : ∃ c, u.getLast? = some c := by
        cases hl : u.getLast? with
        | none => exact absurd (List.getLast?_eq_none_iff.1 hl) hu
        | some c => exact ⟨c, rfl⟩
      have hmem : c ∈ " AND ".data := hpre.subset (List.mem_of_getLast?_eq_some hc)
      have := hfin c hc
      simp at hmem
      rcases hmem with h | h | h | h | h <;> simp [h] at this
  · intro h
    exact h.trans (List.prefix_append u t)

theorem ocurrencias_cons (patron : List Char) (c : Char) (cs : List Char) :
    ocurrencias patron (c :: cs)
      = (if patron.isPrefixOf (c :: cs) then 1 else 0) + ocurrencias patron cs :=
  rfl

/-- The occurrences of ` AND ` in a text followed by another are those of each, when the first
does not end in a character of the pattern. -/
theorem ocurrencias_append (s t : List Char) (hfin : finLibre s) :
    ocurrencias " AND ".data (s ++ t)
      = ocurrencias " AND ".data s + ocurrencias " AND ".data t := by
  have h0 : ocurrencias " AND ".data [] = 0 := by decide
  induction s with
  | nil => rw [List.nil_append, h0, Nat.zero_add]
  | cons c s ih =>
    have hhead : " AND ".data.isPrefixOf (c :: (s ++ t)) = " AND ".data.isPrefixOf (c :: s) :=
      isPrefixOf_and_append (c :: s) t (by simp) hfin
    have hrest : ocurrencias " AND ".data (s ++ t)
        = ocurrencias " AND ".data s + ocurrencias " AND ".data t := by
      cases s with
      | nil => rw [List.nil_append, h0, Nat.zero_add]
      | cons d r =>
        apply ih
        intro x hx
        apply hfin x
        rw [List.getLast?_cons_cons]
        exact hx
    rw [List.cons_append, ocurrencias_cons, ocurrencias_cons, hhead, hrest]
    omega

/-- The text of a conjunct with an index up to 8 holds ` AND ` once, at its start, and does not
end in a character of the pattern. -/
theorem ocurrencias_sql (c : Condicion) (h : ∀ k, c.indice = some k → k ≤ 8) :
    ocurrencias " AND ".data c.sql.data = 1 ∧ finLibre c.sql.data := by
  have hdec : ∀ x : Condicion, x.sql.data.getLast?.all
      (fun y => y != ' ' && y != 'A' && y != 'N' && y != 'D') = true → finLibre x.sql.data := by
    intro x hx y hy
    rw [hy] at hx
    simpa [and_assoc] using hx
  cases c with
  | activoTrue => exact ⟨by decide, hdec _ (by decide)⟩
  | activoIgual k =>
    have := h k rfl
    interval_cases k <;> exact ⟨by decide, hdec _ (by decide)⟩
  | busqueda k =>
    have := h k rfl
    interval_cases k <;> exact ⟨by decide, hdec _ (by decide)⟩
  | tipoIlike k =>
    have := h k rfl
    interval_cases k <;> exact ⟨by decide, hdec _ (by decide)⟩
  | estiloIlike k =>
    have := h k rfl
    interval_cases k <;> exact ⟨by decide, hdec _ (by decide)⟩
  | precioMin k =>
    have := h k rfl
    interval_cases k <;> exact ⟨by decide, hdec _ (by decide)⟩
  | precioMax k =>
    have := h k rfl
    interval_cases k <;> exact ⟨by decide, hdec _ (by decide)⟩
  | materialesSolapa k =>
    have := h k rfl
    interval_cases k <;> exact ⟨by decide, hdec _ (by decide)⟩
  | coloresSolapa k =>
    have := h k rfl
    interval_cases k <;> exact ⟨by decide, hdec _ (by decide)⟩

/-- In the text of a WHERE clause whose conjuncts have indices up to 8, ` AND ` occurs once
per conjunct. -/
theorem ocurrencias_sqlWhere (cs : List Condicion)
    (h : ∀ c ∈ cs, ∀ k, c.indice = some k → k ≤ 8) :
    ocurrencias " AND ".data (sqlWhere cs).data = cs.length ∧ finLibre (sqlWhere cs).data := by
  induction cs using List.reverseRecOn with
  | nil =>
    refine ⟨by decide, ?_⟩
    intro y hy
    have : y = '1' := by
      have h1 : (sqlWhere []).data.getLast? = some '1' := by decide
      rw [h1] at hy
      exact (Option.some.inj hy).symm
    subst this
    decide
  | append_singleton cs c ih =>
    have hc := ocurrencias_sql c (h c (by simp))
    have ih' := ih (fun d hd => h d (by simp [hd]))
    have hne : c.sql.data ≠ [] := by
      intro h0
      have := hc.1
      rw [h0] at this
      exact absurd this (by decide)
    rw [sqlWhere_append, String.data_append]
    refine ⟨?_, ?_⟩
    · rw [ocurrencias_append _ _ ih'.2, ih'.1, hc.1, List.length_append]
      rfl
    · intro y hy
      rw [List.getLast?_append_of_ne_nil _ hne] at hy
      exact hc.2 y hy

theorem largo_condicionesPor :
    ∀ a b c d e f g h i : Bool, (condicionesPor a b c d e f g h i).length ≤ 8 := by
  decide

/-- Every placeholder index of a request is at most 8. -/
theorem indice_le_ocho (req : Peticion) :
    ∀ c ∈ condiciones req, ∀ k, c.indice = some k → k ≤ 8 := by
  intro c hc k hk
  have hL := alineado_construir req
  have hmem : k ∈ (condiciones req).filterMap Condicion.indice :=
    List.mem_filterMap.2 ⟨c, hc, hk⟩
  have hlen : ((condiciones req).filterMap Condicion.indice).length ≤ (condiciones req).length :=
    List.length_filterMap_le _ _
  have h8 : (condiciones req).length ≤ 8 := by
    rw [condiciones_eq_por]
    exact largo_condicionesPor _ _ _ _ _ _ _ _ _
  have henOrden : (condiciones req).filterMap Condicion.indice
      = List.range' 1 (construirFiltro req).valores.length := hL.enOrden
  rw [henOrden] at hmem hlen
  rw [List.length_range'] at hlen
  rw [List.mem_range'_1] at hmem
  omega

/-- One condition per applied filter, in the handler's order. -/
theorem filtro_condiciones (req : Peticion) :
    (condiciones req).map Condicion.filtro = filtrosAplicados req := by
  rw [condiciones_eq_por]
  exact filtro_condicionesPor _ _ _ _ _ _ _ _ _

/-- C16: for every caller and query, the WHERE clause starts with `WHERE 1=1` and is the text
of one conjunct per applied filter, in the handler's order, each starting with ` AND `, and
` AND ` occurs in the clause as many times as filters apply; the placeholder indices of the
conjuncts are, in order, 1 to the number `n` of bound values, with `contador = n + 1`; the
value at the index of a conjunct is the one its own filter pushed, also in the page query; and
the page query's last line names `$(n+1)` and `$(n+2)`, where the two values appended last,
the limit and the offset, stand. -/
theorem placeholders_alineados (req : Peticion) :
    "WHERE 1=1".data <+: (construirFiltro req).whereClause.data
    ∧ (construirFiltro req).whereClause = sqlWhere (condiciones req)
    ∧ (condiciones req).map Condicion.filtro = filtrosAplicados req
    ∧ (∀ c ∈ condiciones req, " AND ".data <+: c.sql.data)
    ∧ ocurrencias " AND ".data (construirFiltro req).whereClause.data
        = (filtrosAplicados req).length
    ∧ (condiciones req).filterMap Condicion.indice
        = List.range' 1 (construirFiltro req).valores.length
    ∧ (construirFiltro req).contador = (construirFiltro req).valores.length + 1
    ∧ (∀ c ∈ condiciones req, ∀ k, c.indice = some k →
        valorDe (construirFiltro req).valores k = valorLigado req c
        ∧ valorDe (valoresPagina req) k = valorLigado req c)
    ∧ clausulaLimite (construirFiltro req)
        = "LIMIT $" ++ toString ((construirFiltro req).valores.length + 1)
            ++ " OFFSET $" ++ toString ((construirFiltro req).valores.length + 2)
    ∧ (valoresPagina req).length = (construirFiltro req).valores.length + 2
    ∧ valorDe (valoresPagina req) ((construirFiltro req).valores.length + 1)
        = some (Valor.entero (limiteDe req.query))
    ∧ valorDe (valoresPagina req) ((construirFiltro req).valores.length + 2)
        = some (Valor.entero (offsetDe req.query)) := by
  have hA := acorde_construir req
  have hL := alineado_construir req
  have hcont : (construirFiltro req).contador = (construirFiltro req).valores.length + 1 :=
    hA.largo.symm
  have hv := valorDe_limite (construirFiltro req).valores (Valor.entero (limiteDe req.query))
    (Valor.entero (offsetDe req.query))
  refine ⟨?_, hA.texto, filtro_condiciones req, ?_, ?_, hL.enOrden, hcont, ?_, ?_, ?_,
    hv.1, hv.2⟩
  · rw [hA.texto]
    exact sqlWhere_prefijo (List.nil_prefix)
  · intro c hc
    rw [condiciones_eq_por] at hc
    exact List.isPrefixOf_iff_prefix.1 (prefijo_condicionesPor _ _ _ _ _ _ _ _ _ c hc)
  · rw [hA.texto, ← filtro_condiciones, List.length_map]
    exact (ocurrencias_sqlWhere _ (indice_le_ocho req)).1
  · intro c hc k hk
    have h1 := hL.ligados c hc k hk
    refine ⟨h1, ?_⟩
    have hb := hA.indices c hc k hk
    rw [valoresPagina, valorDe_append _ _ _ hb.1 (by rw [← hA.cuenta, ← hA.largo] at hb; exact hb.2)]
    exact h1
  · rw [clausulaLimite, hcont]
  · simp [valoresPagina]

/-- C16 at an administrator's request that applies every filter. -/
theorem placeholders_alineados_testigo :
    (condiciones peticionCompleta).filterMap Condicion.indice
      = List.range' 1 (construirFiltro peticionCompleta).valores.length :=
  (placeholders_alineados peticionCompleta).2.2.2.2.2.1

/-! ## Array-overlap filters -/

theorem splitComa_ne_nil (cs : List Char) : splitComa cs ≠ [] := by
  cases cs with
  | nil => simp [splitComa]
  | cons c cs =>
    unfold splitComa
    split
    · simp
    · split <;> simp

theorem splitComa_length (cs : List Char) : (splitComa cs).length = cs.count ',' + 1 := by
  induction cs with
  | nil => rfl
  | cons c cs ih =>
    unfold splitComa
    by_cases hc : c = ','
    · subst hc
      simp [ih]
    · simp only [hc, if_false]
      have hne := splitComa_ne_nil cs
      cases hs : splitComa cs with
      | nil => exact absurd hs hne
      | cons p ps =>
        rw [hs] at ih
        simp only [List.length_cons] at ih ⊢
        rw [List.count_cons_of_ne (fun h => hc h.symm)]
        exact ih

theorem splitComa_intercalate (cs : List Char) :
    List.intercalate [','] (splitComa cs) = cs := by
  induction cs with
  | nil => rfl
  | cons c cs ih =>
    unfold splitComa
    have hne := splitComa_ne_nil cs
    by_cases hc : c = ','
    · subst hc
      simp only [if_true]
      cases hs : splitComa cs with
      | nil => exact absurd hs hne
      | cons p ps =>
        rw [hs] at ih
        simp only [List.intercalate, List.intersperse, List.flatten, List.nil_append] at ih ⊢
        rw [← ih]
        simp
    · simp only [hc, if_false]
      cases hs : splitComa cs with
      | nil => exact absurd hs hne
      | cons p ps =>
        rw [hs] at ih
        rw [← ih]
        cases ps <;> simp [List.intercalate, List.intersperse]

theorem splitComa_sin_coma (cs : List Char) : ∀ p ∈ splitComa cs, ',' ∉ p := by
  induction cs with
  | nil => simp [splitComa]
  | cons c cs ih =>
    unfold splitComa
    have hne := splitComa_ne_nil cs
    by_cases hc : c = ','
    · subst hc
      simp only [if_true]
      intro p hp
      rcases List.mem_cons.1 hp with rfl | hp
      · simp
      · exact ih p hp
    · simp only [hc, if_false]
      cases hs : splitComa cs with
      | nil => exact absurd hs hne
      | cons q qs =>
        rw [hs] at ih
        intro p hp
        rcases List.mem_cons.1 hp with rfl | hp
        · intro hmem
          rcases List.mem_cons.1 hmem with h | h
          · exact hc h.symm
          · exact ih q (List.mem_cons_self _ _) h
        · exact ih p (List.mem_cons_of_mem _ hp)

/-- `trim` removes a run of white space at each end and leaves none there. -/
theorem trimJS_spec (p : List Char) :
    (∃ pre post, p = pre ++ trimJS p ++ post
      ∧ (∀ c ∈ pre, esEspacioJS c = true) ∧ (∀ c ∈ post, esEspacioJS c = true))
    ∧ (∀ c, (trimJS p).head? = some c → esEspacioJS c = false)
    ∧ (∀ c, (trimJS p).getLast? = some c → esEspacioJS c = false) := by
  have h1 : p = p.takeWhile esEspacioJS ++ p.dropWhile esEspacioJS :=
    (List.takeWhile_append_dropWhile esEspacioJS p).symm
  have h2 : (p.dropWhile esEspacioJS).reverse
      = (p.dropWhile esEspacioJS).reverse.takeWhile esEspacioJS
        ++ (p.dropWhile esEspacioJS).reverse.dropWhile esEspacioJS :=
    (List.takeWhile_append_dropWhile esEspacioJS _).symm
  have h3 : p.dropWhile esEspacioJS
      = trimJS p ++ ((p.dropWhile esEspacioJS).reverse.takeWhile esEspacioJS).reverse := by
    have := congrArg List.reverse h2
    rw [List.reverse_reverse, List.reverse_append] at this
    exact this
  have hlast : ∀ c, (trimJS p).getLast? = some c → esEspacioJS c = false := by
    intro c hc
    unfold trimJS at hc
    rw [List.getLast?_reverse] at hc
    have := List.head?_dropWhile_not esEspacioJS (p.dropWhile esEspacioJS).reverse
    rw [hc] at this
    simpa using this
  refine ⟨⟨p.takeWhile esEspacioJS,
    ((p.dropWhile esEspacioJS).reverse.takeWhile esEspacioJS).reverse, ?_, ?_, ?_⟩, ?_, hlast⟩
  · rw [List.append_assoc, ← h3]
    exact h1
  · intro c hc
    exact List.mem_takeWhile_imp hc
  · intro c hc
    exact List.mem_takeWhile_imp (List.mem_reverse.1 hc)
  · intro c hc
    cases ht : trimJS p with
    | nil => rw [ht] at hc; cases hc
    | cons d r =>
      rw [ht] at hc h3
      simp only [List.head?_cons, Option.some.injEq] at hc
      subst hc
      have := List.head?_dropWhile_not esEspacioJS p
      rw [h3] at this
      simpa using this

/-- A filter that applies has its condition among the conditions of the request. -/
theorem condicion_de_filtro (req : Peticion) (nombre : String)
    (h : nombre ∈ filtrosAplicados req) : ∃ c ∈ condiciones req, c.filtro = nombre := by
  rw [← filtro_condiciones] at h
  obtain ⟨c, hc, hn⟩ := List.mem_map.1 h
  exact ⟨c, hc, hn⟩

theorem solapa_iff (columna : Option (List String)) (lista : List String) :
    solapa columna lista = true ↔ ∃ xs, columna = some xs ∧ ∃ x ∈ xs, x ∈ lista := by
  cases columna with
  | none => simp [solapa]
  | some xs => simp [solapa, List.any_eq_true]

/-- The overlap conjunct of a filter that applies, its bound list and what it selects. -/
theorem solapamiento_ligado (req : Peticion) (s : String) (hne : s ≠ "") :
    (req.query.materiales = some s →
      ∃ k, Condicion.materialesSolapa k ∈ condiciones req
        ∧ valorDe (construirFiltro req).valores k = some (Valor.lista (splitTrim s))
        ∧ ∀ (m : Motor) (p : Producto),
            (Condicion.materialesSolapa k).cumple m (construirFiltro req).valores p = true
              ↔ ∃ xs, p.materiales_disponibles = some xs ∧ ∃ x ∈ xs, x ∈ splitTrim s)
    ∧ (req.query.colores = some s →
      ∃ k, Condicion.coloresSolapa k ∈ condiciones req
        ∧ valorDe (construirFiltro req).valores k = some (Valor.lista (splitTrim s))
        ∧ ∀ (m : Motor) (p : Producto),
            (Condicion.coloresSolapa k).cumple m (construirFiltro req).valores p = true
              ↔ ∃ xs, p.colores_disponibles = some xs ∧ ∃ x ∈ xs, x ∈ splitTrim s) := by
  have hL := alineado_construir req
  constructor
  · intro hs
    have hget : req.query.materiales.getD "" = s := by simp [hs]
    have hmem : "materiales" ∈ filtrosAplicados req := by
      simp [filtrosAplicados, filtrosPor, hget, hne]
    obtain ⟨c, hc, hn⟩ := condicion_de_filtro req "materiales" hmem
    cases c <;> simp [Condicion.filtro] at hn
    rename_i k
    have hv := hL.ligados _ hc k rfl
    simp only [valorLigado, hget] at hv
    refine ⟨k, hc, hv, ?_⟩
    intro m p
    simp only [Condicion.cumple, hv]
    exact solapa_iff _ _
  · intro hs
    have hget : req.query.colores.getD "" = s := by simp [hs]
    have hmem : "colores" ∈ filtrosAplicados req := by
      simp [filtrosAplicados, filtrosPor, hget, hne]
    obtain ⟨c, hc, hn⟩ := condicion_de_filtro req "colores" hmem
    cases c <;> simp [Condicion.filtro] at hn
    rename_i k
    have hv := hL.ligados _ hc k rfl
    simp only [valorLigado, hget] at hv
    refine ⟨k, hc, hv, ?_⟩
    intro m p
    simp only [Condicion.cumple, hv]
    exact solapa_iff _ _

/-- C14: for a `materiales` (respectively `colores`) string `s` that is not empty, the pieces
of `s` between its commas, which hold no comma and joined by commas give `s` back, are as many
as its commas plus one; the list `splitTrim s` holds, piece by piece, the piece without the
white space at its two ends, so no element starts or ends with white space; that list is the
value bound to the placeholder of the `&&` conjunct; and a product satisfies the conjunct
exactly when its `materiales_disponibles` (respectively `colores_disponibles`) is not NULL and
has an element in the list. -/
theorem materiales_colores_solapamiento (req : Peticion) (s : String) (hne : s ≠ "") :
    (List.intercalate [','] (splitComa s.data) = s.data ∧ ∀ p ∈ splitComa s.data, ',' ∉ p)
    ∧ (splitTrim s).length = s.data.count ',' + 1
    ∧ (∀ (i : Nat) (p : List Char), (splitComa s.data).get? i = some p →
        (splitTrim s).get? i = some (String.mk (trimJS p))
        ∧ ∃ pre post, p = pre ++ trimJS p ++ post
            ∧ (∀ c ∈ pre, esEspacioJS c = true) ∧ (∀ c ∈ post, esEspacioJS c = true))
    ∧ (∀ x ∈ splitTrim s,
        (∀ c, x.data.head? = some c → esEspacioJS c = false)
        ∧ (∀ c, x.data.getLast? = some c → esEspacioJS c = false))
    ∧ (req.query.materiales = some s →
      ∃ k, Condicion.materialesSolapa k ∈ condiciones req
        ∧ valorDe (construirFiltro req).valores k = some (Valor.lista (splitTrim s))
        ∧ ∀ (m : Motor) (p : Producto),
            (Condicion.materialesSolapa k).cumple m (construirFiltro req).valores p = true
              ↔ ∃ xs, p.materiales_disponibles = some xs ∧ ∃ x ∈ xs, x ∈ splitTrim s)
    ∧ (req.query.colores = some s →
      ∃ k, Condicion.coloresSolapa k ∈ condiciones req
        ∧ valorDe (construirFiltro req).valores k = some (Valor.lista (splitTrim s))
        ∧ ∀ (m : Motor) (p : Producto),
            (Condicion.coloresSolapa k).cumple m (construirFiltro req).valores p = true
              ↔ ∃ xs, p.colores_disponibles = some xs ∧ ∃ x ∈ xs, x ∈ splitTrim s) := by
  refine ⟨⟨splitComa_intercalate _, splitComa_sin_coma _⟩, ?_, ?_, ?_,
    (solapamiento_ligado req s hne).1, (solapamiento_ligado req s hne).2⟩
  · simp [splitTrim, splitComa_length]
  · intro i p hi
    refine ⟨?_, (trimJS_spec p).1⟩
    simp only [splitTrim, List.get?_eq_getElem?, List.getElem?_map] at hi ⊢
    rw [hi]
    rfl
  · intro x hx
    simp only [splitTrim, List.mem_map] at hx
    obtain ⟨p, _, rfl⟩ := hx
    exact (trimJS_spec p).2

/-- C14 at an administrator's request that filters by three materials. -/
theorem materiales_colores_solapamiento_testigo :
    "roble, pino ,nogal" ≠ ""
    ∧ (splitTrim "roble, pino ,nogal").length = "roble, pino ,nogal".data.count ',' + 1 :=
  ⟨by decide,
   (materiales_colores_solapamiento peticionCompleta "roble, pino ,nogal" (by decide)).2.1⟩

/-! ## Tokens -/

/-- With the database call in scope, a token that verifies with expiry ignored and whose user
is the first row found and active is renewed: the answer carries the token signed for that
user's id, email and role. -/
theorem refreshToken_con_query (jwt : Jwt) (expiresIn token : String) (decoded : Payload)
    (q : ConsultaUsuarios) (usuario : UsuarioFila) (resto : List UsuarioFila)
    (hne : token ≠ "") (hv : jwt.verify (some token) true = .ok decoded)
    (hq : q decoded.userId = usuario :: resto) (hact : usuario.activo = true) :
    refreshToken (some q) jwt expiresIn (some token)
      = .ok { message := "Token renovado exitosamente"
              token := jwt.sign usuario.id usuario.correo usuario.rol
              expiresIn := expiresIn } := by
  simp [refreshToken, esVerdadero, hne, hv, hq, hact, generarToken]

/-- With the database call in scope, an unexpired token that verifies and whose user is the
first row found and active is answered as valid, with the expiry of the token. -/
theorem verifyToken_con_query (jwt : Jwt) (cabecera : String) (decoded : Payload)
    (q : ConsultaUsuarios) (usuario : UsuarioFila) (resto : List UsuarioFila)
    (hne : cabecera ≠ "") (hv : jwt.verify (tokenDeCabecera cabecera) false = .ok decoded)
    (hq : q decoded.userId = usuario :: resto) (hact : usuario.activo = true) :
    verifyToken (some q) jwt (some cabecera)
      = { status := 200, valid := true, message := "Token válido"
          expiresAt := some (decoded.exp * 1000) } := by
  simp [verifyToken, hne, hv, hq, hact]

/-- C12, on the code as it stands: a missing token is refused with the validation error and a
token that `jwt.verify` rejects as a `JsonWebTokenError` with the unauthorized error, as
claimed; but for every token that verifies with expiry ignored, whatever the users table
holds, the handler reaches the call of `query`, which `auth.js` does not bind, and throws
`ReferenceError: query is not defined`: it answers with no renewed token. -/
theorem refreshToken_sin_query (jwt : Jwt) (expiresIn token : String) (decoded : Payload)
    (hne : token ≠ "") (hv : jwt.verify (some token) true = .ok decoded) :
    refreshToken queryDeAuth jwt expiresIn (some token)
        = .error (.otro "ReferenceError" "query is not defined")
    ∧ (∀ r, refreshToken queryDeAuth jwt expiresIn (some token) ≠ .ok r)
    ∧ refreshToken queryDeAuth jwt expiresIn none
        = .error (.http (.ValidationError "Token requerido para renovación"))
    ∧ ∀ malo : String, malo ≠ "" → jwt.verify (some malo) true = .error "JsonWebTokenError" →
        refreshToken queryDeAuth jwt expiresIn (some malo)
          = .error (.http (.UnauthorizedError "Token inválido para renovación")) := by
  have h1 : refreshToken queryDeAuth jwt expiresIn (some token)
      = .error (.otro "ReferenceError" "query is not defined") := by
    simp [refreshToken, esVerdadero, hne, hv, queryDeAuth, Excepcion.esJsonWebTokenError,
      Excepcion.name]
  refine ⟨h1, ?_, ?_, ?_⟩
  · intro r hr
    rw [h1] at hr
    cases hr
  · simp [refreshToken, esVerdadero]
  · intro malo hm hmv
    simp [refreshToken, esVerdadero, hm, hmv, Excepcion.esJsonWebTokenError, Excepcion.name]

/-- C12 at the token of an active user of the table. -/
theorem refreshToken_sin_query_testigo :
    "tok-ana" ≠ ""
    ∧ buscarUsuario [usuarioActivo] 7 = [usuarioActivo]
    ∧ refreshToken queryDeAuth jwtEjemplo "24h" (some "tok-ana")
        = .error (.otro "ReferenceError" "query is not defined") :=
  ⟨by decide, by decide,
   (refreshToken_sin_query jwtEjemplo "24h" "tok-ana"
      { userId := 7, correo := "ana@example.com", rol := "cliente", exp := 2000000000 }
      (by decide) rfl).1⟩

/-- C13, on the code as it stands: a request with no `Authorization` header and a token that
`jwt.verify` rejects are answered 401 with `valid: false`, as claimed; but for every header
whose token verifies, whatever the users table holds, the handler reaches the call of `query`,
which `auth.js` does not bind, and the `ReferenceError` is caught and answered 401 with
`valid: false` and `Token inválido`: no token is ever answered as valid. -/
theorem verifyToken_sin_query (jwt : Jwt) (cabecera : String) (decoded : Payload)
    (hne : cabecera ≠ "") (hv : jwt.verify (tokenDeCabecera cabecera) false = .ok decoded) :
    verifyToken queryDeAuth jwt (some cabecera)
        = { status := 401, valid := false, message := "Token inválido", expiresAt := none }
    ∧ (∀ authHeader, (verifyToken queryDeAuth jwt authHeader).valid = false
        ∧ (verifyToken queryDeAuth jwt authHeader).status = 401)
    ∧ verifyToken queryDeAuth jwt none
        = { status := 401, valid := false, message := "Token no proporcionado"
            expiresAt := none } := by
  refine ⟨?_, ?_, rfl⟩
  · simp [verifyToken, hne, hv, queryDeAuth, Excepcion.name]
  · intro authHeader
    cases authHeader with
    | none => exact ⟨rfl, rfl⟩
    | some c =>
      by_cases hc : c = ""
      · simp [verifyToken, hc]
      · cases hver : jwt.verify (tokenDeCabecera c) false with
        | error name => simp [verifyToken, hc, hver]
        | ok d => simp [verifyToken, hc, hver, queryDeAuth]

/-- C13 at the header of a token of an active user of the table. -/
theorem verifyToken_sin_query_testigo :
    "Bearer tok-ana" ≠ ""
    ∧ buscarUsuario [usuarioActivo] 7 = [usuarioActivo]
    ∧ verifyToken queryDeAuth jwtEjemplo (some "Bearer tok-ana")
        = { status := 401, valid := false, message := "Token inválido", expiresAt := none } :=
  ⟨by decide, by decide,
   (verifyToken_sin_query jwtEjemplo "Bearer tok-ana"
      { userId := 7, correo := "ana@example.com", rol := "cliente", exp := 2000000000 }
      (by decide) rfl).1⟩

end Muebles
